import Mathlib

/-!
Verification development for the `xarray_io` raster codec and staging
orchestrator (file `whitebox_tools/xarray_io.py`).

Modelling conventions for the shallow embedding:

* Python strings are modelled as `Str := List Char`.  Literal strings are
  written with `.data`, e.g. `"Min".data`.
* A `.dep` header file is modelled as its list of text lines (the on-disk
  file is the newline-join of those lines; `str.splitlines` on read recovers
  exactly this list because no writer path emits a newline inside a line).
* A `.tas` body file is modelled as its list of bytes (`List Nat`, each
  byte < 256).
* Machine numerics: 16-bit integer samples are modelled exactly
  (two's-complement little-endian).  32-bit floating samples are modelled
  by their binary32 bit pattern (a `Nat < 2^32`): the numpy cast
  `astype('<f4')` is the quantisation step, so "equality up to the
  precision of the declared numeric kind" becomes exact equality of the
  quantised patterns, and the byte codec transports patterns unchanged.
  Native byte order of the platform of record is little-endian.
* Python `int(...)` / `float(...)` literal parsing is modelled on the plain
  decimal subset (optional sign, digits, optional fractional part), which
  covers every value the codec itself emits.
* Heterogeneous Python values found in attribute mappings are modelled by
  `AttrVal` (string / int / float with rational payload).
* Exceptions are modelled by `Except PyErr`; distinct raise sites in the
  source get distinct `PyErr` tags.
-/

/-- Character-list strings, the model of Python `str`. -/
abbrev Str := List Char

/-- Whitespace test used by the model of `str.strip` / `str.split`. -/
def isWs (c : Char) : Bool :=
  c = ' ' || c = '\t' || c = '\n' || c = '\r'

/-- Model of Python `str.strip`: drop leading and trailing whitespace. -/
def stripStr (s : Str) : Str :=
  ((s.dropWhile isWs).reverse.dropWhile isWs).reverse

/-- Model of Python `str.lower` (ASCII). -/
def toLowerStr (s : Str) : Str := s.map Char.toLower

/-- Model of Python `str.upper` (ASCII). -/
def toUpperStr (s : Str) : Str := s.map Char.toUpper

/-- Model of Python `str.split(sep)` for a one-character separator. -/
def splitOnChar (c : Char) : Str → List Str
  | [] => [[]]
  | a :: rest =>
    match splitOnChar c rest with
    | [] => [[]]
    | h :: t => if a = c then [] :: h :: t else (a :: h) :: t

/-- Model of Python `sep.join(parts)` for a one-character separator. -/
def joinWith (c : Char) : List Str → Str
  | [] => []
  | [p] => p
  | p :: ps => p ++ c :: joinWith c ps

/-- Model of Python `str.split()` (no argument): whitespace runs separate
words, empty words are dropped. -/
def splitWsStr (s : Str) : List Str :=
  (splitOnChar ' ' (s.map (fun c => if isWs c then ' ' else c))).filter
    (fun w => ¬ w.isEmpty)

/-- Model of `_lower_key` from the source:
`'_'.join(k.lower().split())`. -/
def lowerKey (k : Str) : Str :=
  joinWith '_' (splitWsStr (toLowerStr k))

/-- One step of Python `str.title`: an alphabetic character is upper-cased
when the previous character was not alphabetic, otherwise lower-cased. -/
def pyTitleGo : Bool → Str → Str
  | _, [] => []
  | prevAlpha, ch :: rest =>
    (if ch.isAlpha then (if prevAlpha then ch.toLower else ch.toUpper) else ch)
      :: pyTitleGo ch.isAlpha rest

/-- Model of Python `str.title`. -/
def pyTitle (s : Str) : Str := pyTitleGo false s

/-- Model of Python `needle in haystack` for strings. -/
def strContains : Str → Str → Bool
  | [], needle => needle.isEmpty
  | h :: t, needle => needle.isPrefixOf (h :: t) || strContains t needle

/-- Optional leading sign of a numeric literal, as consumed by Python
`int(...)` and `float(...)`. -/
def readSign (s : Str) : Bool × Str :=
  match s with
  | [] => (false, [])
  | c :: rest =>
    if c = '-' then (true, rest)
    else if c = '+' then (false, rest)
    else (false, c :: rest)

/-- Numeric value of a digit string (most significant digit first). -/
def digitsToNat (s : Str) : Nat :=
  s.foldl (fun a c => 10 * a + (c.toNat - 48)) 0

/-- Model of Python `int(text)` on the plain decimal subset: strip, optional
sign, one or more digits.  `none` models the `ValueError`. -/
def pyIntStr (s0 : Str) : Option Int :=
  if (¬ (readSign (stripStr s0)).2.isEmpty)
      && (readSign (stripStr s0)).2.all Char.isDigit then
    some (if (readSign (stripStr s0)).1
      then -(digitsToNat (readSign (stripStr s0)).2 : Int)
      else (digitsToNat (readSign (stripStr s0)).2 : Int))
  else none

/-- Sign application of a parsed numeric literal. -/
def pySign (neg : Bool) (q : Rat) : Rat := if neg then -q else q

/-- Model of Python `float(text)` on the plain decimal subset: strip,
optional sign, digits with an optional single decimal point carrying at
least one digit overall.  `none` models the `ValueError`. -/
def pyFloatStr (s0 : Str) : Option Rat :=
  match splitOnChar '.' (readSign (stripStr s0)).2 with
  | [w] =>
    if (¬ w.isEmpty) && w.all Char.isDigit then
      some (pySign (readSign (stripStr s0)).1 (digitsToNat w : Rat))
    else none
  | [w, f] =>
    if ((¬ w.isEmpty) || (¬ f.isEmpty)) && w.all Char.isDigit
        && f.all Char.isDigit then
      some (pySign (readSign (stripStr s0)).1 ((digitsToNat w : Rat)
        + (digitsToNat f : Rat) / ((10 : Rat) ^ f.length)))
    else none
  | _ => none

/-- Decimal digit character of a value below ten. -/
def digitChar (d : Nat) : Char := Char.ofNat (48 + d)

/-- Digit-accumulating loop of `renderNat`, structurally recursive on a
fuel bound so that closed renderings reduce in the kernel. -/
def natDigitsGo : Nat → Nat → Str → Str
  | 0, _, acc => acc
  | _ + 1, 0, acc => acc
  | fuel + 1, n + 1, acc =>
    natDigitsGo fuel ((n + 1) / 10) (digitChar ((n + 1) % 10) :: acc)

/-- Decimal rendering of a natural number, the model of Python `str(n)` for
`n ≥ 0`. -/
def renderNat (n : Nat) : Str :=
  if n = 0 then ['0'] else natDigitsGo (n + 1) n []

/-- Decimal rendering of an integer, the model of Python `str(n)`. -/
def renderInt (n : Int) : Str :=
  if n < 0 then '-' :: renderNat n.natAbs else renderNat n.natAbs

/-- Heterogeneous Python attribute values: strings, ints and floats.  Float
payloads are rationals; every float the codec writes or parses on the claim
paths is decimal. -/
inductive AttrVal where
  | str (s : Str)
  | int (n : Int)
  | float (q : Rat)
deriving DecidableEq, Repr

/-- Model of Python `str(value)` as used by `DEP_TEMPLATE.format`.  A float
with an integral payload renders as in Python (`"1.0"`); non-integral floats
do not occur on any encode path settled here, and render as a fraction. -/
def pyStrVal : AttrVal → Str
  | AttrVal.str s => s
  | AttrVal.int n => renderInt n
  | AttrVal.float q =>
    if q.den = 1 then renderInt q.num ++ ['.', '0']
    else renderInt q.num ++ '/' :: renderNat q.den

/-- Model of Python `==` between attribute values (an int and a float with
the same value compare equal). -/
def pyValEq : AttrVal → AttrVal → Bool
  | AttrVal.str a, AttrVal.str b => a = b
  | AttrVal.int a, AttrVal.int b => a = b
  | AttrVal.float a, AttrVal.float b => a = b
  | AttrVal.int a, AttrVal.float b => ((a : Rat) = b)
  | AttrVal.float a, AttrVal.int b => (a = (b : Rat))
  | _, _ => false

/-- Insertion-ordered string-keyed mapping, the model of a Python `dict`
holding attribute values. -/
abbrev Attrs := List (Str × AttrVal)

/-- Model of `d.get(k)` / `d[k]` lookup on an attribute dict. -/
def aget : Attrs → Str → Option AttrVal
  | [], _ => none
  | kv :: t, k => if kv.1 = k then some kv.2 else aget t k

/-- Model of `d[k] = v` on an attribute dict: replace in place if the key is
present, else append. -/
def aset : Attrs → Str → AttrVal → Attrs
  | [], k, v => [(k, v)]
  | kv :: t, k, v => if kv.1 = k then (k, v) :: t else kv :: aset t k v

/-- Error kinds, one tag per distinct raise site of the source that the
claims touch. -/
inductive PyErr where
  /-- `ValueError` from `case_insensitive_attrs` for missing required keys
  (the spec's `MissingFieldError`). -/
  | missingKeys
  /-- `ValueError` from `case_insensitive_attrs` for a bad `data_scale`
  (the spec's `InvalidValueError`). -/
  | badDataScale
  /-- `NotImplementedError` for the `rgb` data scale (the spec's
  `UnsupportedFeatureError`). -/
  | rgbUnsupported
  /-- `NotImplementedError` from `not_2d_error`. -/
  | not2d
  /-- `TypeError`, e.g. Python 3 `None > 1`. -/
  | typeErr
  /-- `KeyError` from a missing mapping key. -/
  | keyErr
  /-- `AttributeError`, e.g. `None.lower()`. -/
  | attrErr
  /-- `ValueError` from `int(text)` (the spec's `FormatError`). -/
  | badInt
  /-- `ValueError` from `float(text)` (the spec's `FormatError`). -/
  | badFloat
  /-- `ValueError` from `from_dep` for a missing file. -/
  | fileMissing
  /-- `struct.error` from packing an out-of-range or non-integer sample. -/
  | structErr
  /-- `ValueError` from `xarray_whitebox_io` for a Dataset under `input`. -/
  | usageErr
deriving DecidableEq, Repr

/-- `OK_DATA_SCALES` from the source, verbatim including the capitalised
`Boolean` entry. -/
def OK_DATA_SCALES : List Str :=
  ["continuous".data, "categorical".data, "Boolean".data, "rgb".data]

/-- `OPTIONAL_DEP_FIELDS` from the source. -/
def OPTIONAL_DEP_FIELDS : List Str :=
  ["display_min".data, "display_max".data, "metadata_entry".data,
   "projection".data, "preferred_palette".data, "palette_nonlinearity".data,
   "byte_order".data, "nodata".data]

/-- `REQUIRED_DEP_FIELDS` from the source. -/
def REQUIRED_DEP_FIELDS : List Str :=
  ["max".data, "min".data, "north".data, "south".data, "east".data,
   "west".data, "cols".data, "rows".data, "dtype".data, "z_units".data,
   "xy_units".data, "data_scale".data]

/-- `FLOAT_DEP_FIELDS` from the source. -/
def FLOAT_DEP_FIELDS : List Str :=
  ["Min".data, "Max".data, "North".data, "South".data, "East".data,
   "West".data, "Display Min".data, "Display Max".data]

/-- `INT_DEP_FIELDS` from the source. -/
def INT_DEP_FIELDS : List Str :=
  ["Cols".data, "Rows".data, "Stacks".data]

/-- `UPPER_STR_FIELDS` from the source. -/
def UPPER_STR_FIELDS : List Str :=
  ["Data Type".data, "Byte Order".data]

/-- Model of `(lower.get('data_scale') or '').lower()`: a string value is
lower-cased, an absent or falsy value yields the empty string, and calling
`.lower()` on a truthy non-string raises `AttributeError`. -/
def dataScaleLowered : Option AttrVal → Except PyErr Str
  | some (AttrVal.str s) => Except.ok (toLowerStr s)
  | some (AttrVal.int n) =>
    if n = 0 then Except.ok [] else Except.error PyErr.attrErr
  | some (AttrVal.float q) =>
    if q = 0 then Except.ok [] else Except.error PyErr.attrErr
  | none => Except.ok []

/-- Lower-keyed dict of `case_insensitive_attrs`, seeded with the inferred
`dtype` and overwritten entry by entry with the lower-keyed input. -/
def lowerFold (attrs : Attrs) (typ : Str) : Attrs :=
  attrs.foldl (fun l kv => aset l (lowerKey kv.1) kv.2)
    [("dtype".data, AttrVal.str typ)]

/-- Back-fill `xy_units` from `units` when absent. -/
def unitsStepXY (l : Attrs) : Attrs :=
  match aget l "xy_units".data, aget l "units".data with
  | none, some u => aset l "xy_units".data u
  | _, _ => l

/-- Back-fill `z_units` from `units` when absent. -/
def unitsStepZ (l : Attrs) : Attrs :=
  match aget l "z_units".data, aget l "units".data with
  | none, some u => aset l "z_units".data u
  | _, _ => l

/-- First palette default of the source: a missing `preferred_palette`
assigns the palette file marker to `palette_nonlinearity`. -/
def paletteStep1 (l : Attrs) : Attrs :=
  if (aget l "preferred_palette".data).isNone then
    aset l "palette_nonlinearity".data (AttrVal.str "high_relief.pal".data)
  else l

/-- Second palette default of the source: a (still) missing
`palette_nonlinearity` gets the numeric default 1.0. -/
def paletteStep2 (l : Attrs) : Attrs :=
  if (aget l "palette_nonlinearity".data).isNone then
    aset l "palette_nonlinearity".data (AttrVal.float 1)
  else l

/-- Fill every absent optional field with the empty string. -/
def fillOptional (l : Attrs) : Attrs :=
  OPTIONAL_DEP_FIELDS.foldl
    (fun l k => if (aget l k).isNone then aset l k (AttrVal.str []) else l) l

/-- Lower-keyed dict of `case_insensitive_attrs` after the unit back-fills
and the two sequential palette defaults, before the required-key check. -/
def normBase (attrs : Attrs) (typ : Str) : Attrs :=
  paletteStep2 (paletteStep1 (unitsStepZ (unitsStepXY (lowerFold attrs typ))))

/-- Model of `case_insensitive_attrs(attrs, typ)` from the source: build the
lower-keyed dict seeded with the inferred `dtype`, back-fill `xy_units` and
`z_units` from `units`, apply the two sequential palette defaults, check the
required keys, fill absent optional keys with the empty string, then
validate `data_scale`. -/
def case_insensitive_attrs (attrs : Attrs) (typ : Str) : Except PyErr Attrs :=
  if ¬ (REQUIRED_DEP_FIELDS.all fun k => (aget (normBase attrs typ) k).isSome) then
    Except.error PyErr.missingKeys
  else
    match dataScaleLowered
        (aget (fillOptional (normBase attrs typ)) "data_scale".data) with
    | Except.error e => Except.error e
    | Except.ok ds =>
      if OK_DATA_SCALES.contains ds then
        if ds = "rgb".data then Except.error PyErr.rgbUnsupported
        else Except.ok (fillOptional (normBase attrs typ))
      else Except.error PyErr.badDataScale

/-- Numeric kind of a raster body: `'f4'` (32-bit float) or `'i2'` (16-bit
signed integer), as produced by `_get_dtype`. -/
inductive NKind where
  | float
  | integer
deriving DecidableEq, Repr

/-- Type string of a kind, the first component of `_get_dtype`'s result. -/
def kindName : NKind → Str
  | NKind.float => "float".data
  | NKind.integer => "integer".data

/-- Model of `_get_dtype(dtype_str)`: `'float' in dtype_str.lower()` selects
the float kind, anything else the integer kind. -/
def _get_dtype (dtypeStr : Str) : NKind :=
  if strContains (toLowerStr dtypeStr) "float".data then NKind.float
  else NKind.integer

/-- In-memory grid sample: a number or the missing-value marker `NaN`.  For
an integer-kind array `iv` holds the sample value; for a float-kind array it
holds the binary32 bit pattern of the (already quantised) sample. -/
inductive Sample where
  | nan
  | iv (n : Int)
deriving DecidableEq, Repr

/-- Model of an `xarray.DataArray`: numpy dtype name, shape, row-major flat
values and the attribute dict.  The derived `x`/`y` linspace coordinates of
`from_dep` and the `filename` attribute (a Python list) are omitted: no
claim mentions them. -/
structure DataArr where
  dtypeName : Str
  shape : List Nat
  values : List Sample
  attrs : Attrs
deriving DecidableEq, Repr

/-- Sixteen-bit two's-complement wrap, the model of numpy `astype('<i2')`. -/
def wrap16 (n : Int) : Int :=
  if 32768 ≤ n % 65536 then n % 65536 - 65536 else n % 65536

/-- Model of the `val.astype('<' + dtype)` cast in `data_array_to_dep`: the
integer kind wraps to 16 bits; the float kind is the identity on the
binary32 patterns (quantisation is the representation).  Casting `NaN` to an
integer is unspecified in numpy and modelled as 0; it is unreachable on the
claim paths. -/
def astypeKind : NKind → Sample → Sample
  | NKind.float, s => s
  | NKind.integer, Sample.iv n => Sample.iv (wrap16 n)
  | NKind.integer, Sample.nan => Sample.iv 0

/-- Byte width of one sample of a kind. -/
def sampleWidth : NKind → Nat
  | NKind.float => 4
  | NKind.integer => 2

/-- Little-endian serialisation of a word into a fixed number of bytes. -/
def leBytes : Nat → Nat → List Nat
  | 0, _ => []
  | w + 1, n => (n % 256) :: leBytes w (n / 256)

/-- Model of `struct.pack` for one sample: `'h'` checks the signed 16-bit
range and writes two's complement little-endian; `'f'` writes the binary32
pattern (a non-numeric `NaN` sample packs as the quiet-NaN pattern). -/
def packSample : NKind → Sample → Except PyErr (List Nat)
  | NKind.integer, Sample.iv n =>
    if -32768 ≤ n ∧ n ≤ 32767 then Except.ok (leBytes 2 (n % 65536).toNat)
    else Except.error PyErr.structErr
  | NKind.integer, Sample.nan => Except.error PyErr.structErr
  | NKind.float, Sample.iv n => Except.ok (leBytes 4 n.toNat)
  | NKind.float, Sample.nan => Except.ok (leBytes 4 2143289344)

/-- Row-major packing of all samples (the per-row `struct.pack` writes of
`to_tas`, concatenated). -/
def packSamples (k : NKind) : List Sample → Except PyErr (List Nat)
  | [] => Except.ok []
  | s :: rest =>
    match packSample k s, packSamples k rest with
    | Except.ok b, Except.ok bs => Except.ok (b ++ bs)
    | Except.error e, _ => Except.error e
    | _, Except.error e => Except.error e

/-- Model of `to_tas(vals, typ_str, fname)`: reject non-2-D input, then
write every sample row-major. -/
def to_tas (vals : List Sample) (shape : List Nat) (k : NKind) :
    Except PyErr (List Nat) :=
  if shape.length ≠ 2 then Except.error PyErr.not2d else packSamples k vals

/-- Chunking loop: accumulate bytes of the current chunk, emit it when it
reaches the width, and drop a trailing partial chunk. -/
def chunkGo (width : Nat) : List Nat → List Nat → List (List Nat)
  | _, [] => []
  | acc, b :: rest =>
    if (acc ++ [b]).length = width then (acc ++ [b]) :: chunkGo width [] rest
    else chunkGo width (acc ++ [b]) rest

/-- Split a byte string into complete fixed-width chunks, dropping a
trailing partial chunk (as `np.fromfile` reads complete items). -/
def chunkBytes (width : Nat) (bs : List Nat) : List (List Nat) :=
  chunkGo width [] bs

/-- Little-endian word value of a byte chunk. -/
def wordOfLE (bs : List Nat) : Nat :=
  bs.foldr (fun b acc => b + 256 * acc) 0

/-- Decode one little-endian chunk: float kind yields the binary32 pattern,
integer kind the signed 16-bit value. -/
def decodeSampleLE (k : NKind) (bs : List Nat) : Sample :=
  match k with
  | NKind.float => Sample.iv (wordOfLE bs : Int)
  | NKind.integer =>
    let w := wordOfLE bs
    Sample.iv (if 32768 ≤ w then (w : Int) - 65536 else (w : Int))

/-- Model of `np.fromfile(tas, dtype)`: fixed-width samples, big-endian when
the dtype carries the `'>'` prefix, else (native or `'<'`) little-endian. -/
def npFromfile (bytes : List Nat) (k : NKind) (big : Bool) : List Sample :=
  (chunkBytes (sampleWidth k) bytes).map
    (fun bs => decodeSampleLE k (if big then bs.reverse else bs))

/-- Model of `ndarray.resize(r, c)`: truncate or zero-pad to the requested
element count. -/
def padResize (n : Nat) (l : List Sample) : List Sample :=
  l.take n ++ List.replicate (n - l.length) (Sample.iv 0)

/-- Dict lookup that raises `KeyError` when absent, the model of
`mapping[key]` inside `str.format`. -/
def agetE (a : Attrs) (k : Str) : Except PyErr AttrVal :=
  match aget a k with
  | some v => Except.ok v
  | none => Except.error PyErr.keyErr

/-- The twenty fixed `Key: value` lines of `DEP_TEMPLATE`, with the
template's exact spacing, rendered from the normalized attribute dict. -/
def depLines20 (a : Attrs) : Except PyErr (List Str) := do
  let vmin ← agetE a "min".data
  let vmax ← agetE a "max".data
  let vnorth ← agetE a "north".data
  let vsouth ← agetE a "south".data
  let veast ← agetE a "east".data
  let vwest ← agetE a "west".data
  let vcols ← agetE a "cols".data
  let vrows ← agetE a "rows".data
  let vstacks ← agetE a "stacks".data
  let vdtype ← agetE a "dtype".data
  let vzu ← agetE a "z_units".data
  let vxu ← agetE a "xy_units".data
  let vproj ← agetE a "projection".data
  let vds ← agetE a "data_scale".data
  let vdmin ← agetE a "display_min".data
  let vdmax ← agetE a "display_max".data
  let vpp ← agetE a "preferred_palette".data
  let vpn ← agetE a "palette_nonlinearity".data
  let vnod ← agetE a "nodata".data
  let vbo ← agetE a "byte_order".data
  Except.ok
    ["Min:  ".data ++ pyStrVal vmin,
     "Max:    ".data ++ pyStrVal vmax,
     "North:  ".data ++ pyStrVal vnorth,
     "South:  ".data ++ pyStrVal vsouth,
     "East:   ".data ++ pyStrVal veast,
     "West:   ".data ++ pyStrVal vwest,
     "Cols:   ".data ++ pyStrVal vcols,
     "Rows:   ".data ++ pyStrVal vrows,
     "Stacks: ".data ++ pyStrVal vstacks,
     "Data Type:  ".data ++ pyStrVal vdtype,
     "Z Units:    ".data ++ pyStrVal vzu,
     "Xy Units:   ".data ++ pyStrVal vxu,
     "Projection: ".data ++ pyStrVal vproj,
     "Data Scale: ".data ++ pyStrVal vds,
     "Display Min:    ".data ++ pyStrVal vdmin,
     "Display Max:    ".data ++ pyStrVal vdmax,
     "Preferred Palette:  ".data ++ pyStrVal vpp,
     "Palette Nonlinearity: ".data ++ pyStrVal vpn,
     "Nodata: ".data ++ pyStrVal vnod,
     "Byte Order: ".data ++ pyStrVal vbo]

/-- Model of Python `str.splitlines` on newline-separated text. -/
def pySplitlinesS (s : Str) : List Str :=
  if s.isEmpty then []
  else
    let parts := splitOnChar '\n' s
    if parts.getLast? = some [] then parts.dropLast else parts

/-- Lines of the written `.dep` file: the twenty template lines followed by
the rendered `{metadata_entry}` tail (`''.join('\nMetadata Entry: ...' for
each metadata line)` — an empty separator line followed by one `Metadata
Entry` line per entry when the metadata text is non-empty). -/
def depFileLines (a : Attrs) (meta : Str) : Except PyErr (List Str) :=
  match depLines20 a with
  | Except.error e => Except.error e
  | Except.ok ls =>
    let ms := pySplitlinesS meta
    Except.ok (ls ++
      (if ms.isEmpty then []
       else [] :: ms.map (fun m => "Metadata Entry: ".data ++ m)))

/-- Model of Python 3 `attrs.get('stacks') > 1`: comparing `None` or a
string with an int raises `TypeError`. -/
def pyGtOne : Option AttrVal → Except PyErr Bool
  | none => Except.error PyErr.typeErr
  | some (AttrVal.str _) => Except.error PyErr.typeErr
  | some (AttrVal.int n) => Except.ok (decide (1 < n))
  | some (AttrVal.float q) => Except.ok (decide (1 < q))

/-- Model of `data_array_to_dep(arr)`: infer the kind from the array dtype,
cast the values, normalize the attributes, force little-endian byte order,
reject non-2-D or multi-stack input, then produce the header lines and the
packed body (the two staged files' contents). -/
def data_array_to_dep (arr : DataArr) : Except PyErr (List Str × List Nat) :=
  match case_insensitive_attrs arr.attrs (kindName (_get_dtype arr.dtypeName)) with
  | Except.error e => Except.error e
  | Except.ok a0 =>
    if arr.shape.length ≠ 2 then Except.error PyErr.not2d
    else
      match pyGtOne (aget (aset a0 "byte_order".data
          (AttrVal.str "LITTLE_ENDIAN".data)) "stacks".data) with
      | Except.error e => Except.error e
      | Except.ok g =>
        if g then Except.error PyErr.not2d
        else
          match
            (match aget (aset a0 "byte_order".data
                (AttrVal.str "LITTLE_ENDIAN".data)) "metadata_entry".data with
             | some (AttrVal.str m) => Except.ok m
             | some _ => Except.error PyErr.attrErr
             | none => Except.ok ([] : Str)) with
          | Except.error e => Except.error e
          | Except.ok meta =>
            match depFileLines (aset a0 "byte_order".data
                (AttrVal.str "LITTLE_ENDIAN".data)) meta with
            | Except.error e => Except.error e
            | Except.ok hdr =>
              match to_tas (arr.values.map (astypeKind (_get_dtype arr.dtypeName)))
                  arr.shape (_get_dtype arr.dtypeName) with
              | Except.error e => Except.error e
              | Except.ok body => Except.ok (hdr, body)

/-- Key and raw value of one header line, as `_from_dep` computes them:
strip the line, split on `':'`, title-case the stripped first part, rejoin
and strip the remainder. -/
def lineKV (l : Str) : Str × Str :=
  (pyTitle (stripStr ((splitOnChar ':' (stripStr l)).headD [])),
   stripStr (joinWith ':' (splitOnChar ':' (stripStr l)).tail))

/-- Typed coercion of a header value by key class: integer fields via
`int(...)`, floating fields via `float(...)`, fixed-case fields verbatim,
all other fields upper-cased. -/
def coerceVal (key : Str) (value : Str) : Except PyErr AttrVal :=
  if key ∈ INT_DEP_FIELDS then
    match pyIntStr value with
    | some n => Except.ok (AttrVal.int n)
    | none => Except.error PyErr.badInt
  else if key ∈ FLOAT_DEP_FIELDS then
    match pyFloatStr value with
    | some q => Except.ok (AttrVal.float q)
    | none => Except.error PyErr.badFloat
  else if key ∈ UPPER_STR_FIELDS then Except.ok (AttrVal.str value)
  else Except.ok (AttrVal.str (toUpperStr value))

/-- Store one parsed header entry: `Metadata Entry` accumulates
newline-joined, every other key overwrites. -/
def metaStep (acc : Attrs) (key : Str) (v : AttrVal) : Except PyErr Attrs :=
  if key = "Metadata Entry".data then
    match aget acc key with
    | none => Except.ok (aset acc key v)
    | some (AttrVal.str old) =>
      match v with
      | AttrVal.str nv =>
        Except.ok (aset acc key (AttrVal.str (old ++ '\n' :: nv)))
      | _ => Except.error PyErr.typeErr
    | some _ => Except.error PyErr.typeErr
  else Except.ok (aset acc key v)

/-- Line loop of `_from_dep`. -/
def fromDepGo : List Str → Attrs → Except PyErr Attrs
  | [], acc => Except.ok acc
  | l :: rest, acc =>
    match coerceVal (lineKV l).1 (lineKV l).2 with
    | Except.error e => Except.error e
    | Except.ok v =>
      match metaStep acc (lineKV l).1 v with
      | Except.error e => Except.error e
      | Except.ok acc2 => fromDepGo rest acc2

/-- Model of `_from_dep(fname)` on the file's lines. -/
def _from_dep (ls : List Str) : Except PyErr Attrs := fromDepGo ls []

/-- Numpy dtype name of a decoded array. -/
def kindDtypeName : NKind → Str
  | NKind.float => "float32".data
  | NKind.integer => "int16".data

/-- Model of `from_dep(dep, tas)` given the two files' contents: parse the
header, pick the dtype from `Data Type`, honour the byte order only if the
lookup of the lower-case key `'byte_order'` yields an `ENDIAN` literal
(the parsed dict holds `'Byte Order'`, so this lookup matters), read and
resize the body (`attrs['Rows']` / `attrs['Cols']` raising `KeyError` when
absent), then derive the coordinates: the `np.linspace` calls index
`attrs['South']`, `attrs['North']`, `attrs['East']` and `attrs['West']`,
raising `KeyError` when any is absent.  The derived coordinate arrays
themselves are omitted from the result (no claim mentions them; whenever
these keys are present in a parsed header they hold floats, which
`np.linspace` accepts). -/
def from_dep (depLines : List Str) (tasBytes : List Nat) :
    Except PyErr DataArr :=
  match _from_dep depLines with
  | Except.error e => Except.error e
  | Except.ok attrs =>
    match aget attrs "Data Type".data with
    | some (AttrVal.str dstr) =>
      let k := _get_dtype dstr
      let big :=
        match aget attrs "byte_order".data with
        | some (AttrVal.str s) => s = "BIG_ENDIAN".data
        | _ => false
      let val := npFromfile tasBytes k big
      match aget attrs "Rows".data, aget attrs "Cols".data with
      | some (AttrVal.int rows), some (AttrVal.int cols) =>
        match aget attrs "South".data, aget attrs "North".data,
            aget attrs "East".data, aget attrs "West".data with
        | some _, some _, some _, some _ =>
          Except.ok
            { dtypeName := kindDtypeName k
              shape := [rows.toNat, cols.toNat]
              values := padResize (rows * cols).toNat val
              attrs := attrs }
        | _, _, _, _ => Except.error PyErr.keyErr
      | _, _ => Except.error PyErr.keyErr
    | some _ => Except.error PyErr.attrErr
    | none => Except.error PyErr.attrErr

/-- Numpy `==` between a sample and an attribute value: `NaN` compares
false against everything, a number against a string compares false, numbers
compare by value. -/
def sampleEqVal : Sample → AttrVal → Bool
  | Sample.nan, _ => false
  | Sample.iv n, AttrVal.int m => n = m
  | Sample.iv n, AttrVal.float q => ((n : Rat) = q)
  | Sample.iv _, AttrVal.str _ => false

/-- Replace one sample by the missing-value marker when it equals the
sentinel. -/
def maskSample (noData : AttrVal) (s : Sample) : Sample :=
  if sampleEqVal s noData then Sample.nan else s

/-- Model of `_assign_nodata(arr, no_data)`: an integer-kind array is first
widened to `float64` (values unchanged), then every sample equal to the
sentinel becomes `NaN`. -/
def _assign_nodata (arr : DataArr) (noData : AttrVal) : DataArr :=
  let arr1 :=
    if strContains arr.dtypeName "int".data then
      { arr with dtypeName := "float64".data }
    else arr
  { arr1 with values := arr1.values.map (maskSample noData) }

/-- Model of `assign_nodata(dset, **dep)` on a Dataset's variables: a `dep`
without a `'Nodata'` key leaves everything untouched, otherwise every
variable is masked. -/
def assign_nodata_vars (vars : List (Str × DataArr)) (dep : Attrs) :
    List (Str × DataArr) :=
  match aget dep "Nodata".data with
  | none => vars
  | some v => vars.map (fun p => (p.1, _assign_nodata p.2 v))

/-- `INPUT_ARGS` from the source. -/
def INPUT_ARGS : List Str :=
  ["input".data, "inputs".data, "i".data, "pour_pts".data, "d8_pntr".data]

/-- `OUTPUT_ARGS` from the source. -/
def OUTPUT_ARGS : List Str :=
  ["output".data, "outputs".data, "o".data]

/-- Values a tool invocation's parameter mapping can hold: a path string,
a single array, a Dataset (collection of named arrays) or a boolean
option. -/
inductive PyVal where
  | pstr (s : Str)
  | parr (a : DataArr)
  | pdset (vars : List (Str × DataArr))
  | pbool (b : Bool)
deriving DecidableEq, Repr

/-- Insertion-ordered parameter mapping of one invocation. -/
abbrev Kwargs := List (Str × PyVal)

/-- Lookup in a parameter mapping. -/
def kwGet : Kwargs → Str → Option PyVal
  | [], _ => none
  | kv :: t, k => if kv.1 = k then some kv.2 else kwGet t k

/-- Assignment in a parameter mapping (replace or append). -/
def kwSet : Kwargs → Str → PyVal → Kwargs
  | [], k, v => [(k, v)]
  | kv :: t, k, v => if kv.1 = k then (k, v) :: t else kv :: kwSet t k v

/-- Assignment in a string-to-string dict (replace or append). -/
def lset : List (Str × Str) → Str → Str → List (Str × Str)
  | [], k, v => [(k, v)]
  | kv :: t, k, v => if kv.1 = k then (k, v) :: t else kv :: lset t k v

/-- Model of Python `paths.split(', ')`. -/
def splitCommaSpace : Str → List Str
  | [] => [[]]
  | ',' :: ' ' :: rest => [] :: splitCommaSpace rest
  | c :: rest =>
    match splitCommaSpace rest with
    | [] => [[c]]
    | h :: t => (c :: h) :: t

/-- Join with a multi-character separator, the model of `sep.join`. -/
def joinStrs (sep : Str) (l : List Str) : Str := List.intercalate sep l

/-- Model of `os.path.abspath(os.path.join(os.curdir, path))`.  Path
normalisation is filesystem-dependent and outside every claim; it is
modelled as the identity. -/
def absPathModel (p : Str) : Str := p

/-- Model of `fix_path(path)`: split on `', '`, normalise each piece, and
rejoin (a single piece is returned bare). -/
def fix_path (path : Str) : Str :=
  let paths := (splitCommaSpace path).map absPathModel
  match paths with
  | [p] => p
  | ps => joinStrs ", ".data ps

/-- Staged temp-file base name under the temp directory for a tag. -/
def tmpName (tag : Str) : Str := "tmp/".data ++ tag

/-- Header path of a staged pair. -/
def depName (tag : Str) : Str := tmpName tag ++ ".dep".data

/-- Body path of a staged pair. -/
def tasName (tag : Str) : Str := tmpName tag ++ ".tas".data

/-- State built by the staging loop of `xarray_whitebox_io`: the rewritten
parameter mapping, the registered outputs, the `fnames` dict of staged
Dataset members, every temp file actually written, the last parameter that
dumped an array, and the loop variable `k` after the loop. -/
structure StageState where
  kwargs : Kwargs
  load_afterwards : List (Str × Str)
  fnames : List ((Str × Str) × (Str × Str))
  created : List Str
  dumped : Option Str
  lastKey : Option Str
deriving DecidableEq, Repr

/-- Stage every member of a Dataset input: serialize each named array to a
`dep`/`tas` pair tagged by the member name, recording it in `fnames`. -/
def stageDsetMembers (st : StageState) (k : Str) :
    List (Str × DataArr) → Except PyErr StageState
  | [] => Except.ok st
  | m :: rest =>
    match data_array_to_dep m.2 with
    | Except.error e => Except.error e
    | Except.ok _ =>
      stageDsetMembers
        { st with
          fnames := st.fnames ++ [((k, m.1), (depName m.1, tasName m.1))]
          created := st.created ++ [depName m.1, tasName m.1] }
        k rest

/-- One iteration of the classification loop of `xarray_whitebox_io`:
path-valued inputs are normalised, a Dataset under `input` is a usage
error, Dataset members are staged and joined, a single array is staged
(without being recorded in `fnames`), and outputs are registered. -/
def stageStep (st : StageState) (kv : Str × PyVal) : Except PyErr StageState :=
  let k := kv.1
  if INPUT_ARGS.contains k then
    match kv.2 with
    | PyVal.pstr s =>
      Except.ok { st with
        kwargs := kwSet st.kwargs k (PyVal.pstr (fix_path s))
        lastKey := some k }
    | PyVal.pdset vars =>
      if k = "input".data then Except.error PyErr.usageErr
      else
        match stageDsetMembers st k vars with
        | Except.error e => Except.error e
        | Except.ok st1 =>
          let deps := (st1.fnames.filter (fun f => f.1.1 = k)).map
            (fun f => f.2.1)
          Except.ok { st1 with
            kwargs := kwSet st1.kwargs k (PyVal.pstr (joinStrs ", ".data deps))
            dumped := some k
            lastKey := some k }
    | PyVal.parr a =>
      match data_array_to_dep a with
      | Except.error e => Except.error e
      | Except.ok _ =>
        Except.ok { st with
          kwargs := kwSet st.kwargs k (PyVal.pstr (depName k))
          created := st.created ++ [depName k, tasName k]
          dumped := some k
          lastKey := some k }
    | PyVal.pbool _ => Except.ok { st with lastKey := some k }
  else if OUTPUT_ARGS.contains k then
    match kv.2 with
    | PyVal.pstr s =>
      Except.ok { st with
        load_afterwards := lset st.load_afterwards k (fix_path s)
        lastKey := some k }
    | _ => Except.error PyErr.typeErr
  else Except.ok { st with lastKey := some k }

/-- Model of `path.replace('.dep', '-output.dep')`. -/
def replaceDepOut : Str → Str
  | [] => []
  | '.' :: 'd' :: 'e' :: 'p' :: rest => "-output.dep".data ++ replaceDepOut rest
  | c :: rest => c :: replaceDepOut rest

/-- Model of `kwargs.pop(k, default)`: the removed value (if any) and the
remaining mapping. -/
def popKw (kwargs : Kwargs) (k : Str) : Option PyVal × Kwargs :=
  (kwGet kwargs k, kwargs.filter (fun kv => ¬ (kv.1 = k)))

/-- Model of the staging phase of `xarray_whitebox_io(func, **kwargs)`: pop
`delete_tempdir` (whose value the source never consults again), classify
and stage every parameter, and synthesise a default output when none was
given but an array was dumped. -/
def xarray_whitebox_call (kwargs0 : Kwargs) : Except PyErr StageState :=
  let kwargs1 := (popKw kwargs0 "delete_tempdir".data).2
  let st0 : StageState := ⟨kwargs1, [], [], [], none, none⟩
  match kwargs1.foldlM stageStep st0 with
  | Except.error e => Except.error e
  | Except.ok st =>
    if st.load_afterwards.isEmpty ∧ st.dumped.isSome then
      match st.dumped, st.lastKey with
      | some dk, some lk =>
        match kwGet st.kwargs dk with
        | some (PyVal.pstr depPath) =>
          let outName := replaceDepOut depPath
          Except.ok { st with
            load_afterwards := lset st.load_afterwards lk outName
            kwargs := kwSet st.kwargs "output".data (PyVal.pstr outName) }
        | _ => Except.error PyErr.typeErr
      | _, _ => Except.error PyErr.typeErr
    else Except.ok st

/-- Contents of the files the external tool left behind: header files by
path and body files by path. -/
structure FileSys where
  deps : List (Str × List Str)
  tases : List (Str × List Nat)
deriving Repr

/-- Header-file lookup. -/
def fsGetDep (fs : FileSys) (p : Str) : Option (List Str) :=
  (fs.deps.find? (fun kv => kv.1 = p)).map (fun kv => kv.2)

/-- Body-file lookup. -/
def fsGetTas (fs : FileSys) (p : Str) : Option (List Nat) :=
  (fs.tases.find? (fun kv => kv.1 = p)).map (fun kv => kv.2)

/-- Model of Python `s.endswith(t)`. -/
def strEndsWith (s t : Str) : Bool := t.reverse.isPrefixOf s.reverse

/-- Model of `from_dep(dep)` reading from the file system: the `.tas` path
is guessed by swapping the extension, and a missing header or body file is
a `ValueError`. -/
def from_dep_file (fs : FileSys) (dep : Str) : Except PyErr DataArr :=
  if dep.isEmpty || (fsGetDep fs dep).isNone then Except.error PyErr.fileMissing
  else if ¬ strEndsWith dep ".dep".data then Except.error PyErr.fileMissing
  else
    let tas := dep.take (dep.length - 4) ++ ".tas".data
    match fsGetDep fs dep, fsGetTas fs tas with
    | some dl, some tb => from_dep dl tb
    | _, _ => Except.error PyErr.fileMissing

/-- Load the comma-separated paths of one registered output in order; the
last one wins.  Each loaded record's attrs are updated with the invocation
metadata; the metadata dict also records the full parameter mapping, which
`AttrVal` cannot hold and no claim reads, so only `return_code` is
modelled. -/
def loadPaths (fs : FileSys) (retVal : Int) :
    List Str → Option DataArr → Except PyErr (Option DataArr)
  | [], acc => Except.ok acc
  | p :: rest, _ =>
    match from_dep_file fs p with
    | Except.error e => Except.error e
    | Except.ok arr =>
      loadPaths fs retVal rest
        (some { arr with
          attrs := aset arr.attrs "return_code".data (AttrVal.int retVal) })

/-- Assignment in the `data_arrs` dict. -/
def dvarSet : List (Str × DataArr) → Str → DataArr → List (Str × DataArr)
  | [], k, v => [(k, v)]
  | kv :: t, k, v => if kv.1 = k then (k, v) :: t else kv :: dvarSet t k v

/-- Output-loading loop of `delayed_load_later`, also tracking the loop
variable `k` after the loop. -/
def goLoad (fs : FileSys) (retVal : Int) :
    List (Str × Str) → List (Str × DataArr) × Str →
    Except PyErr (List (Str × DataArr) × Str)
  | [], acc => Except.ok acc
  | kp :: rest, acc =>
    match loadPaths fs retVal (splitCommaSpace kp.2) none with
    | Except.error e => Except.error e
    | Except.ok none => Except.error PyErr.keyErr
    | Except.ok (some arr) =>
      goLoad fs retVal rest (dvarSet acc.1 kp.1 arr, kp.1)

/-- Result of `delayed_load_later`: the single record when exactly one
output was registered, the full variable collection, and the list of temp
files removed. -/
structure LoadResult where
  single : Option DataArr
  vars : List (Str × DataArr)
  removed : List Str
deriving DecidableEq, Repr

/-- Model of `delayed_load_later(ret_val)`: with no registered output the
status is returned untouched (no loads, no removals); otherwise every
output is parsed back, `assign_nodata` is applied to the Dataset with no
`dep` mapping (so its `Nodata` lookup is empty), the `fnames` pairs are
removed, and the single record is returned when exactly one output was
registered. -/
def delayed_load_later (st : StageState) (fs : FileSys) (retVal : Int) :
    Except PyErr LoadResult :=
  if st.load_afterwards.isEmpty then Except.ok ⟨none, [], []⟩
  else
    match goLoad fs retVal st.load_afterwards ([], []) with
    | Except.error e => Except.error e
    | Except.ok va =>
      let vars2 := assign_nodata_vars va.1 []
      let removed := st.fnames.foldl (fun acc f => acc ++ [f.2.1, f.2.2]) []
      if st.load_afterwards.length = 1 then
        Except.ok
          ⟨(vars2.find? (fun p => p.1 = va.2)).map (fun p => p.2), vars2,
            removed⟩
      else Except.ok ⟨none, vars2, removed⟩

/-- Attribute mapping with canonical lower-case keys built from the twelve
required values (data type omitted: the codec injects it from the array
dtype), used to state mapping-level claims. -/
def mkAttrs (vmin vmax vnorth vsouth veast vwest : Int) (cols rows : Nat)
    (zu xu ds : Str) : Attrs :=
  [("min".data, AttrVal.int vmin), ("max".data, AttrVal.int vmax),
   ("north".data, AttrVal.int vnorth), ("south".data, AttrVal.int vsouth),
   ("east".data, AttrVal.int veast), ("west".data, AttrVal.int vwest),
   ("cols".data, AttrVal.int (cols : Int)),
   ("rows".data, AttrVal.int (rows : Int)),
   ("z_units".data, AttrVal.str zu), ("xy_units".data, AttrVal.str xu),
   ("data_scale".data, AttrVal.str ds)]

/-- `mkAttrs` with a `stacks` entry appended. -/
def mkAttrsS (vmin vmax vnorth vsouth veast vwest : Int) (cols rows : Nat)
    (zu xu ds : Str) (stk : Int) : Attrs :=
  mkAttrs vmin vmax vnorth vsouth veast vwest cols rows zu xu ds
    ++ [("stacks".data, AttrVal.int stk)]

/-- `mkAttrsS` with `display_min` / `display_max` entries appended. -/
def mkAttrsSD (vmin vmax vnorth vsouth veast vwest : Int) (cols rows : Nat)
    (zu xu ds : Str) (stk dmin dmax : Int) : Attrs :=
  mkAttrsS vmin vmax vnorth vsouth veast vwest cols rows zu xu ds stk
    ++ [("display_min".data, AttrVal.int dmin),
        ("display_max".data, AttrVal.int dmax)]

/-- The spec scenario's attribute mapping, exactly as the claim lists it
(no `stacks`, no display fields). -/
def scnAttrs : Attrs :=
  mkAttrs 0 10 5 0 0 5 5 5 "M".data "M".data "continuous".data

/-- The spec scenario's 5×5 float grid with the sample patterns 0..24. -/
def scnGrid : List Sample := (List.range 25).map (fun i => Sample.iv (i : Int))

/-- The spec scenario's array, literally as claimed. -/
def scnArr : DataArr := ⟨"float64".data, [5, 5], scnGrid, scnAttrs⟩

/-- The spec scenario's array with `stacks: 1` added. -/
def scnArrS : DataArr :=
  ⟨"float64".data, [5, 5], scnGrid,
    mkAttrsS 0 10 5 0 0 5 5 5 "M".data "M".data "continuous".data 1⟩

/-- The spec scenario's array with `stacks: 1`, `display_min: 0` and
`display_max: 10` added (the least extension on which decode succeeds). -/
def scnArrSD : DataArr :=
  ⟨"float64".data, [5, 5], scnGrid,
    mkAttrsSD 0 10 5 0 0 5 5 5 "M".data "M".data "continuous".data 1 0 10⟩

/-- Header lines the amended scenario encodes to. -/
def scnHdr : List Str :=
  match data_array_to_dep scnArrSD with
  | Except.ok r => r.1
  | Except.error _ => []

/-- Body bytes the amended scenario encodes to. -/
def scnBody : List Nat :=
  match data_array_to_dep scnArrSD with
  | Except.ok r => r.2
  | Except.error _ => []

/-- Record the amended scenario decodes back to. -/
def scnDec : DataArr :=
  match from_dep scnHdr scnBody with
  | Except.ok a => a
  | Except.error _ => ⟨[], [], [], []⟩

/-- Valid 1×1 integer array without display fields, witnessing the failing
decode of the round trip. -/
def rt1Arr : DataArr :=
  ⟨"int64".data, [1, 1], [Sample.iv 7],
    mkAttrsS 0 10 5 0 0 5 1 1 "M".data "M".data "continuous".data 1⟩

/-- Valid 1×1 integer array with display fields supplied. -/
def rt1ArrD : DataArr :=
  ⟨"int64".data, [1, 1], [Sample.iv 7],
    mkAttrsSD 0 10 5 0 0 5 1 1 "M".data "M".data "continuous".data 1 0 10⟩

/-- Record the displayed 1×1 round trip decodes back to. -/
def rt1Dec : DataArr :=
  match data_array_to_dep rt1ArrD with
  | Except.ok r =>
    match from_dep r.1 r.2 with
    | Except.ok a => a
    | Except.error _ => ⟨[], [], [], []⟩
  | Except.error _ => ⟨[], [], [], []⟩

/-- Header declaring a big-endian one-sample integer body, with the
coordinate fields the loader's `np.linspace` calls index. -/
def bigHdr : List Str :=
  ["Rows: 1".data, "Cols: 1".data, "Data Type: integer".data,
   "South: 0".data, "North: 1".data, "East: 0".data, "West: 1".data,
   "Byte Order: BIG_ENDIAN".data]

/-- The same header declaring little-endian order. -/
def litHdr : List Str :=
  ["Rows: 1".data, "Cols: 1".data, "Data Type: integer".data,
   "South: 0".data, "North: 1".data, "East: 0".data, "West: 1".data,
   "Byte Order: LITTLE_ENDIAN".data]

/-- Parameter mapping of the nodata scenario: a path input and an output. -/
def ndKwargs : Kwargs :=
  [("i".data, PyVal.pstr "in.dep".data),
   ("output".data, PyVal.pstr "out.dep".data)]

/-- Output header of the nodata scenario: a five-sample integer grid with
`Nodata: -9999` declared and the coordinate fields the loader indexes. -/
def ndOutHdr : List Str :=
  ["Rows: 1".data, "Cols: 5".data, "Data Type: integer".data,
   "South: 0".data, "North: 1".data, "East: 0".data, "West: 5".data,
   "Nodata: -9999".data]

/-- File system after the external call of the nodata scenario: the body
holds `3, -9999, -9999, 7, -9999` little-endian. -/
def ndFs : FileSys :=
  ⟨[("out.dep".data, ndOutHdr)],
   [("out.tas".data, [3, 0, 241, 216, 241, 216, 7, 0, 241, 216])]⟩

/-- Record the nodata scenario's orchestrated load returns. -/
def ndLoaded : DataArr :=
  match (xarray_whitebox_call ndKwargs).bind
      (fun st => delayed_load_later st ndFs 0) with
  | Except.ok r => r.single.getD ⟨[], [], [], []⟩
  | Except.error _ => ⟨[], [], [], []⟩

/-- Valid 1×1 integer array staged by the cleanup scenarios. -/
def clArr : DataArr :=
  ⟨"int64".data, [1, 1], [Sample.iv 5],
    mkAttrsS 0 10 5 0 0 5 1 1 "M".data "M".data "continuous".data 1⟩

/-- Cleanup scenario 1: a Dataset input under `inputs`, an explicit output,
and `delete_tempdir` set to `False`. -/
def clKwargs1 : Kwargs :=
  [("inputs".data, PyVal.pdset [("a".data, clArr)]),
   ("output".data, PyVal.pstr "o.dep".data),
   ("delete_tempdir".data, PyVal.pbool false)]

/-- Cleanup scenario 2: a single-array input under `i`, an explicit output,
and `delete_tempdir` left at its default (delete). -/
def clKwargs2 : Kwargs :=
  [("i".data, PyVal.parr clArr),
   ("output".data, PyVal.pstr "o.dep".data)]

/-- Output files of the cleanup scenarios (the header carries the
coordinate fields the loader indexes). -/
def clFs : FileSys :=
  ⟨[("o.dep".data, ["Rows: 1".data, "Cols: 1".data,
     "Data Type: integer".data,
     "South: 0".data, "North: 1".data, "East: 0".data, "West: 1".data])],
   [("o.tas".data, [5, 0])]⟩

/-- Mapping with required fields, no `preferred_palette` and no
`palette_nonlinearity`. -/
def palAttrs : Attrs :=
  mkAttrsS 0 10 5 0 0 5 1 1 "M".data "M".data "continuous".data 1

/-- Mapping with required fields and a `preferred_palette` but no
`palette_nonlinearity`. -/
def palPPAttrs : Attrs :=
  mkAttrsS 0 10 5 0 0 5 1 1 "M".data "M".data "continuous".data 1
    ++ [("preferred_palette".data, AttrVal.str "x.pal".data)]

/-- Normalized `palette_nonlinearity` of a mapping, when normalization
succeeds. -/
def normPaletteNonlinearity (attrs : Attrs) (typ : Str) : Option AttrVal :=
  match case_insensitive_attrs attrs typ with
  | Except.ok low => aget low "palette_nonlinearity".data
  | Except.error _ => none

/-- Integer grid with no sample equal to 3. -/
def intNoMatchArr : DataArr :=
  ⟨"int16".data, [1, 2], [Sample.iv 1, Sample.iv 2], []⟩

/-- Floating grid with no sample equal to 3. -/
def fltNoMatchArr : DataArr :=
  ⟨"float64".data, [1, 1], [Sample.iv 4], []⟩

/-- Predicate: no key of the mapping normalizes to the given lower-case
key. -/
@[reducible] def lacksKey (attrs : Attrs) (k : Str) : Prop :=
  ∀ kv ∈ attrs, lowerKey kv.1 ≠ k

/-- Predicate: some key of the mapping normalizes to the given lower-case
key. -/
@[reducible] def hasKey (attrs : Attrs) (k : Str) : Prop :=
  ∃ kv ∈ attrs, lowerKey kv.1 = k

/-- Predicate: every required field name is supplied by the mapping. -/
@[reducible] def requiredPresent (attrs : Attrs) : Prop :=
  ∀ f ∈ REQUIRED_DEP_FIELDS, f = "dtype".data ∨ hasKey attrs f

/-- Normalized `stacks` value a successful encode checked, as seen by the
`attrs.get('stacks') > 1` guard. -/
def normStacks (arr : DataArr) : Option AttrVal :=
  match case_insensitive_attrs arr.attrs (kindName (_get_dtype arr.dtypeName)) with
  | Except.ok a0 =>
    aget (aset a0 "byte_order".data (AttrVal.str "LITTLE_ENDIAN".data))
      "stacks".data
  | Except.error _ => none

/-- Mapping with required fields and no `stacks` key, of a 2-D array, used
to witness that encoding demands `stacks`. -/
def noStacksArr : DataArr :=
  ⟨"int64".data, [1, 1], [Sample.iv 7],
    mkAttrs 0 10 5 0 0 5 1 1 "M".data "M".data "continuous".data⟩

/-- Bad-numeric-line test mirroring the error sites of `_from_dep`: the
line's title-cased key is an integer field whose value fails `int(...)`, or
a floating field whose value fails `float(...)`. -/
def badNumericLine (l : Str) : Bool :=
  (decide ((lineKV l).1 ∈ INT_DEP_FIELDS) && (pyIntStr (lineKV l).2).isNone)
    || (decide ((lineKV l).1 ∈ FLOAT_DEP_FIELDS)
        && (pyFloatStr (lineKV l).2).isNone)

/-- Bytes one sample packs to (the payload of a successful `packSample`). -/
def packedBytes : NKind → Sample → List Nat
  | NKind.integer, Sample.iv n => leBytes 2 (n % 65536).toNat
  | NKind.integer, Sample.nan => []
  | NKind.float, Sample.iv n => leBytes 4 n.toNat
  | NKind.float, Sample.nan => leBytes 4 2143289344

/-- Packing precondition of one sample: the signed 16-bit range for the
integer kind. -/
def packOK : NKind → Sample → Prop
  | NKind.integer, Sample.iv n => -32768 ≤ n ∧ n ≤ 32767
  | NKind.integer, Sample.nan => False
  | NKind.float, _ => True

/-- Well-formed in-memory sample of a kind on the round-trip paths: a
number, with a binary32 pattern in range for the float kind. -/
@[reducible] def sampleOK : NKind → Sample → Prop
  | NKind.float, Sample.iv n => 0 ≤ n ∧ n < 4294967296
  | NKind.float, Sample.nan => False
  | NKind.integer, Sample.iv _ => True
  | NKind.integer, Sample.nan => False

/-- A string with no leading or trailing whitespace (Python `strip` fixed
point), stated through the two one-sided trims. -/
@[reducible] def Cleaned (s : Str) : Prop :=
  s.dropWhile isWs = s ∧ s.reverse.dropWhile isWs = s.reverse

/-- Header lines `data_array_to_dep` writes for the canonical mapping
family `mkAttrsSD` (spacing exactly as in `DEP_TEMPLATE`). -/
def c1HdrLines (kind : NKind) (vmin vmax vnorth vsouth veast vwest : Int)
    (cols rows : Nat) (zu xu ds : Str) (stk dmin dmax : Int) : List Str :=
  ["Min:  ".data ++ renderInt vmin,
   "Max:    ".data ++ renderInt vmax,
   "North:  ".data ++ renderInt vnorth,
   "South:  ".data ++ renderInt vsouth,
   "East:   ".data ++ renderInt veast,
   "West:   ".data ++ renderInt vwest,
   "Cols:   ".data ++ renderInt (cols : Int),
   "Rows:   ".data ++ renderInt (rows : Int),
   "Stacks: ".data ++ renderInt stk,
   "Data Type:  ".data ++ kindName kind,
   "Z Units:    ".data ++ zu,
   "Xy Units:   ".data ++ xu,
   "Projection: ".data,
   "Data Scale: ".data ++ ds,
   "Display Min:    ".data ++ renderInt dmin,
   "Display Max:    ".data ++ renderInt dmax,
   "Preferred Palette:  ".data,
   "Palette Nonlinearity: high_relief.pal".data,
   "Nodata: ".data,
   "Byte Order: LITTLE_ENDIAN".data]

/-- Attribute dict `_from_dep` parses those header lines back to. -/
def c1ParsedAttrs (kind : NKind) (vmin vmax vnorth vsouth veast vwest : Int)
    (cols rows : Nat) (zu xu ds : Str) (stk dmin dmax : Int) : Attrs :=
  [("Min".data, AttrVal.float (vmin : Rat)),
   ("Max".data, AttrVal.float (vmax : Rat)),
   ("North".data, AttrVal.float (vnorth : Rat)),
   ("South".data, AttrVal.float (vsouth : Rat)),
   ("East".data, AttrVal.float (veast : Rat)),
   ("West".data, AttrVal.float (vwest : Rat)),
   ("Cols".data, AttrVal.int (cols : Int)),
   ("Rows".data, AttrVal.int (rows : Int)),
   ("Stacks".data, AttrVal.int stk),
   ("Data Type".data, AttrVal.str (kindName kind)),
   ("Z Units".data, AttrVal.str (toUpperStr zu)),
   ("Xy Units".data, AttrVal.str (toUpperStr xu)),
   ("Projection".data, AttrVal.str []),
   ("Data Scale".data, AttrVal.str (toUpperStr ds)),
   ("Display Min".data, AttrVal.float (dmin : Rat)),
   ("Display Max".data, AttrVal.float (dmax : Rat)),
   ("Preferred Palette".data, AttrVal.str []),
   ("Palette Nonlinearity".data, AttrVal.str "HIGH_RELIEF.PAL".data),
   ("Nodata".data, AttrVal.str []),
   ("Byte Order".data, AttrVal.str "LITTLE_ENDIAN".data)]

/-- Normalized attribute dict `case_insensitive_attrs` produces for the
canonical mapping family `mkAttrsSD` (entries in the insertion order the
source's dict operations create). -/
def normC1 (typ : Str) (vmin vmax vnorth vsouth veast vwest : Int)
    (cols rows : Nat) (zu xu ds : Str) (stk dmin dmax : Int) : Attrs :=
  [("dtype".data, AttrVal.str typ),
   ("min".data, AttrVal.int vmin),
   ("max".data, AttrVal.int vmax),
   ("north".data, AttrVal.int vnorth),
   ("south".data, AttrVal.int vsouth),
   ("east".data, AttrVal.int veast),
   ("west".data, AttrVal.int vwest),
   ("cols".data, AttrVal.int (cols : Int)),
   ("rows".data, AttrVal.int (rows : Int)),
   ("z_units".data, AttrVal.str zu),
   ("xy_units".data, AttrVal.str xu),
   ("data_scale".data, AttrVal.str ds),
   ("stacks".data, AttrVal.int stk),
   ("display_min".data, AttrVal.int dmin),
   ("display_max".data, AttrVal.int dmax),
   ("palette_nonlinearity".data, AttrVal.str "high_relief.pal".data),
   ("metadata_entry".data, AttrVal.str []),
   ("projection".data, AttrVal.str []),
   ("preferred_palette".data, AttrVal.str []),
   ("byte_order".data, AttrVal.str []),
   ("nodata".data, AttrVal.str [])]

/-- Lower-keyed dict `lowerFold` builds from the canonical mapping family
(the stage of `case_insensitive_attrs` before the palette defaults). -/
def normC1low (typ : Str) (vmin vmax vnorth vsouth veast vwest : Int)
    (cols rows : Nat) (zu xu ds : Str) (stk dmin dmax : Int) : Attrs :=
  [("dtype".data, AttrVal.str typ),
   ("min".data, AttrVal.int vmin),
   ("max".data, AttrVal.int vmax),
   ("north".data, AttrVal.int vnorth),
   ("south".data, AttrVal.int vsouth),
   ("east".data, AttrVal.int veast),
   ("west".data, AttrVal.int vwest),
   ("cols".data, AttrVal.int (cols : Int)),
   ("rows".data, AttrVal.int (rows : Int)),
   ("z_units".data, AttrVal.str zu),
   ("xy_units".data, AttrVal.str xu),
   ("data_scale".data, AttrVal.str ds),
   ("stacks".data, AttrVal.int stk),
   ("display_min".data, AttrVal.int dmin),
   ("display_max".data, AttrVal.int dmax)]

/-- `normC1low` after the first palette default (the `normBase` stage of the
canonical mapping family). -/
def normC1pal (typ : Str) (vmin vmax vnorth vsouth veast vwest : Int)
    (cols rows : Nat) (zu xu ds : Str) (stk dmin dmax : Int) : Attrs :=
  [("dtype".data, AttrVal.str typ),
   ("min".data, AttrVal.int vmin),
   ("max".data, AttrVal.int vmax),
   ("north".data, AttrVal.int vnorth),
   ("south".data, AttrVal.int vsouth),
   ("east".data, AttrVal.int veast),
   ("west".data, AttrVal.int vwest),
   ("cols".data, AttrVal.int (cols : Int)),
   ("rows".data, AttrVal.int (rows : Int)),
   ("z_units".data, AttrVal.str zu),
   ("xy_units".data, AttrVal.str xu),
   ("data_scale".data, AttrVal.str ds),
   ("stacks".data, AttrVal.int stk),
   ("display_min".data, AttrVal.int dmin),
   ("display_max".data, AttrVal.int dmax),
   ("palette_nonlinearity".data, AttrVal.str "high_relief.pal".data)]

/-- Character produced by a decimal digit. -/
def DigitCh (x : Char) : Prop := ∃ d, d < 10 ∧ x = digitChar d

/-- Decidable equality for `Except` results, used to evaluate closed runs
of the codec in proofs. -/
instance instDecEqExcept {e a : Type} [DecidableEq e] [DecidableEq a] :
    DecidableEq (Except e a)
  | Except.ok x, Except.ok y =>
    match decEq x y with
    | isTrue h => isTrue (by rw [h])
    | isFalse h => isFalse (fun hh => h (Except.ok.inj hh))
  | Except.error x, Except.error y =>
    match decEq x y with
    | isTrue h => isTrue (by rw [h])
    | isFalse h => isFalse (fun hh => h (Except.error.inj hh))
  | Except.ok _, Except.error _ => isFalse (fun hh => Except.noConfusion hh)
  | Except.error _, Except.ok _ => isFalse (fun hh => Except.noConfusion hh)

/-- Values decoded from the big-endian-declared header and body `[0, 1]`. -/
def bigDec : DataArr :=
  match from_dep bigHdr [0, 1] with
  | Except.ok a => a
  | Except.error _ => ⟨[], [], [], []⟩

/-- Values decoded from the little-endian-declared header and the
byte-swapped body `[1, 0]`. -/
def litDec : DataArr :=
  match from_dep litHdr [1, 0] with
  | Except.ok a => a
  | Except.error _ => ⟨[], [], [], []⟩

/-- Full run of cleanup scenario 1 (staging plus load). -/
def clRun1 : Except PyErr LoadResult :=
  (xarray_whitebox_call clKwargs1).bind (fun st => delayed_load_later st clFs 0)

/-- Full run of cleanup scenario 2 (staging plus load). -/
def clRun2 : Except PyErr LoadResult :=
  (xarray_whitebox_call clKwargs2).bind (fun st => delayed_load_later st clFs 0)

/-- Normalized `data_scale` of the displayed 1×1 round-trip input. -/
def rt1NormScale : Option AttrVal :=
  match case_insensitive_attrs rt1ArrD.attrs "integer".data with
  | Except.ok l => aget l "data_scale".data
  | Except.error _ => none

/-- C2.  The claim says a `data_scale` equal to `boolean` up to case passes
validation; in the code `OK_DATA_SCALES` holds the capitalised literal
`'Boolean'` while the checked value is lower-cased first, so every
`boolean` spelling is rejected with the `InvalidValueError`-class error.
The other spellings behave as claimed (`continuous` passes, `rgb` raises
the unsupported-feature error). -/
theorem c2_boolean_scale_rejected :
    case_insensitive_attrs
        (mkAttrsS 0 10 5 0 0 5 5 5 "M".data "M".data "boolean".data 1)
        "float".data = Except.error PyErr.badDataScale
  ∧ case_insensitive_attrs
        (mkAttrsS 0 10 5 0 0 5 5 5 "M".data "M".data "Boolean".data 1)
        "float".data = Except.error PyErr.badDataScale
  ∧ (case_insensitive_attrs
        (mkAttrsS 0 10 5 0 0 5 5 5 "M".data "M".data "continuous".data 1)
        "float".data).isOk = true
  ∧ case_insensitive_attrs
        (mkAttrsS 0 10 5 0 0 5 5 5 "M".data "M".data "rgb".data 1)
        "float".data = Except.error PyErr.rgbUnsupported :=
  ⟨rfl, rfl, rfl, rfl⟩

/-- C3.  The claim says decode honours the header's `Byte Order`; in the
code `from_dep` looks up the key `'byte_order'` in a dict whose parser
title-cases keys to `'Byte Order'`, so the lookup always misses and both
headers are decoded native little-endian: the big-endian-declared body
`[0, 1]` decodes to 256, while the claim demands it equal the decode of the
swapped body `[1, 0]`, which is 1. -/
theorem c3_byte_order_ignored :
    from_dep bigHdr [0, 1] = Except.ok bigDec
  ∧ bigDec.values = [Sample.iv 256]
  ∧ from_dep litHdr [1, 0] = Except.ok litDec
  ∧ litDec.values = [Sample.iv 1]
  ∧ bigDec.values ≠ litDec.values :=
  ⟨rfl, rfl, rfl, rfl, by decide⟩

/-- C4.  The claim says the orchestrated load path masks every cell equal
to the declared `Nodata: -9999` sentinel; in the code `delayed_load_later`
calls `assign_nodata(dataset)` without passing any `dep` mapping, so the
`Nodata` lookup is empty and nothing is masked: all three sentinel cells
come back as `-9999` and no missing-value marker appears. -/
theorem c4_nodata_unmasked :
    (xarray_whitebox_call ndKwargs).bind (fun st => delayed_load_later st ndFs 0)
      = Except.ok ⟨some ndLoaded, [("output".data, ndLoaded)], []⟩
  ∧ aget ndLoaded.attrs "Nodata".data = some (AttrVal.str "-9999".data)
  ∧ ndLoaded.values = [Sample.iv 3, Sample.iv (-9999), Sample.iv (-9999),
      Sample.iv 7, Sample.iv (-9999)]
  ∧ ndLoaded.values.count Sample.nan = 0 :=
  ⟨rfl, rfl, rfl, rfl⟩

/-- C5.  The claim says every staged temp file is deleted after a
successful load, if and only if `delete_tempdir` is set; in the code the
popped `delete_tempdir` value is never consulted and only Dataset members
are recorded in `fnames`: scenario 1 (Dataset member, flag `False`) still
deletes both staged files, scenario 2 (single array, flag defaulting to
delete) deletes nothing although it created two files and its load
succeeded. -/
theorem c5_cleanup_divergence :
    (xarray_whitebox_call clKwargs1).map StageState.created
      = Except.ok [depName "a".data, tasName "a".data]
  ∧ clRun1.map LoadResult.removed
      = Except.ok [depName "a".data, tasName "a".data]
  ∧ (xarray_whitebox_call clKwargs2).map StageState.created
      = Except.ok [depName "i".data, tasName "i".data]
  ∧ clRun2.map LoadResult.removed = Except.ok [] :=
  ⟨rfl, rfl, rfl, rfl⟩

/-- C6 counterexample.  The claim says any line without a colon raises the
`FormatError`-class error; in the code such a line splits into the whole
line and an empty value, and when its title-cased key is not a numeric
field it is stored with the empty value without any error (`foo` parses to
`Foo ↦ ''`).  A colon-less line whose key is a numeric field does fail,
via the numeric coercion of the empty value. -/
theorem c6_counterexample :
    _from_dep ["foo".data] = Except.ok [("Foo".data, AttrVal.str [])]
  ∧ _from_dep ["Cols".data] = Except.error PyErr.badInt :=
  ⟨rfl, rfl⟩

/-- C7 counterexample.  The claimed scenario's mapping has no `stacks`
key, so encoding fails on the Python 3 comparison `None > 1` instead of
producing the claimed pair; with `stacks: 1` added the header has 20
lines, not the claimed 19; and decoding that pair fails on
`float('')` for the empty `Display Min` line instead of reproducing the
grid. -/
theorem c7_counterexample :
    data_array_to_dep scnArr = Except.error PyErr.typeErr
  ∧ (data_array_to_dep scnArrS).map (fun r => r.1.length) = Except.ok 20
  ∧ (data_array_to_dep scnArrS).bind (fun r => from_dep r.1 r.2)
      = Except.error PyErr.badFloat :=
  ⟨rfl, rfl, rfl⟩

/-- C7 as amended.  With `stacks: 1`, `display_min: 0` and
`display_max: 10` added to the scenario's mapping, encoding produces a
20-line header and a 100-byte body; decoding that pair reproduces the 5×5
grid exactly and preserves the numeric fields as numbers and the data
type verbatim, while `z_units`/`xy_units`/`data_scale` come back
upper-cased (`M` is its own upper case). -/
theorem c7_amended_scenario :
    data_array_to_dep scnArrSD = Except.ok (scnHdr, scnBody)
  ∧ scnHdr.length = 20
  ∧ scnBody.length = 100
  ∧ from_dep scnHdr scnBody = Except.ok scnDec
  ∧ scnDec.values = scnGrid
  ∧ scnDec.shape = [5, 5]
  ∧ aget scnDec.attrs "Min".data = some (AttrVal.float 0)
  ∧ aget scnDec.attrs "Max".data = some (AttrVal.float 10)
  ∧ aget scnDec.attrs "North".data = some (AttrVal.float 5)
  ∧ aget scnDec.attrs "South".data = some (AttrVal.float 0)
  ∧ aget scnDec.attrs "East".data = some (AttrVal.float 0)
  ∧ aget scnDec.attrs "West".data = some (AttrVal.float 5)
  ∧ aget scnDec.attrs "Cols".data = some (AttrVal.int 5)
  ∧ aget scnDec.attrs "Rows".data = some (AttrVal.int 5)
  ∧ aget scnDec.attrs "Data Type".data = some (AttrVal.str "float".data)
  ∧ aget scnDec.attrs "Z Units".data
      = some (AttrVal.str (toUpperStr "M".data))
  ∧ aget scnDec.attrs "Xy Units".data
      = some (AttrVal.str (toUpperStr "M".data))
  ∧ aget scnDec.attrs "Data Scale".data
      = some (AttrVal.str (toUpperStr "continuous".data))
  ∧ aget scnDec.attrs "Byte Order".data
      = some (AttrVal.str "LITTLE_ENDIAN".data) :=
  ⟨rfl, rfl, rfl, rfl, rfl, rfl, rfl, rfl, rfl, rfl, rfl, rfl, rfl, rfl,
   rfl, rfl, rfl, rfl, rfl⟩

/-- C8 counterexample.  The claim says a mapping without a
`palette_nonlinearity` key always normalizes to the numeric default 1.0;
in the code the preceding branch for a missing `preferred_palette`
assigns the palette file marker to `palette_nonlinearity` first, so a
mapping missing both keys normalizes to the string marker, not 1.0. -/
theorem c8_counterexample :
    normPaletteNonlinearity palAttrs "integer".data
      = some (AttrVal.str "high_relief.pal".data)
  ∧ AttrVal.str "high_relief.pal".data ≠ AttrVal.float 1 :=
  ⟨rfl, by decide⟩

/-- C9 counterexample.  The claim says a grid with no sample equal to the
sentinel is left unchanged including its numeric kind; in the code an
integer-kind grid is unconditionally widened to `float64` before masking,
so the kind changes even though the values do not. -/
theorem c9_counterexample :
    intNoMatchArr.values = [Sample.iv 1, Sample.iv 2]
  ∧ sampleEqVal (Sample.iv 1) (AttrVal.int 3) = false
  ∧ sampleEqVal (Sample.iv 2) (AttrVal.int 3) = false
  ∧ _assign_nodata intNoMatchArr (AttrVal.int 3) ≠ intNoMatchArr
  ∧ (_assign_nodata intNoMatchArr (AttrVal.int 3)).dtypeName
      = "float64".data
  ∧ (_assign_nodata intNoMatchArr (AttrVal.int 3)).values
      = intNoMatchArr.values :=
  ⟨rfl, rfl, rfl, by decide, rfl, rfl⟩

/-- C1 counterexample.  Two failures of the round trip as claimed: a valid
mapping without the optional display fields encodes fine but decodes with
the `FormatError`-class failure (`float('')` on the empty `Display Min`
value); and with display fields supplied the decoded `Data Scale` is the
upper-cased `CONTINUOUS`, not the normalized attribute value
`continuous`, so a required header field is not preserved exactly. -/
theorem c1_counterexample :
    (data_array_to_dep rt1Arr).isOk = true
  ∧ (data_array_to_dep rt1Arr).bind (fun r => from_dep r.1 r.2)
      = Except.error PyErr.badFloat
  ∧ (data_array_to_dep rt1ArrD).bind (fun r => from_dep r.1 r.2)
      = Except.ok rt1Dec
  ∧ rt1Dec.values = [Sample.iv 7]
  ∧ rt1NormScale = some (AttrVal.str "continuous".data)
  ∧ aget rt1Dec.attrs "Data Scale".data
      = some (AttrVal.str "CONTINUOUS".data)
  ∧ AttrVal.str "CONTINUOUS".data ≠ AttrVal.str "continuous".data :=
  ⟨rfl, rfl, rfl, rfl, rfl, rfl, by decide⟩

/-- The missing-value marker never equals a sentinel. -/
theorem sampleEqVal_nan (v : AttrVal) : sampleEqVal Sample.nan v = false := rfl

/-- Masking one sample twice with the same sentinel equals masking once. -/
theorem maskSample_idem (v : AttrVal) (s : Sample) :
    maskSample v (maskSample v s) = maskSample v s := by
  by_cases h : sampleEqVal s v = true
  · simp [maskSample, h, sampleEqVal_nan]
  · rw [Bool.not_eq_true] at h
    simp [maskSample, h]

/-- Masking a sample list twice equals masking once. -/
theorem maskMap_idem (v : AttrVal) (l : List Sample) :
    (l.map (maskSample v)).map (maskSample v) = l.map (maskSample v) := by
  induction l with
  | nil => rfl
  | cons s t ih => simp only [List.map_cons, maskSample_idem, ih]

/-- Masking a list with no sample equal to the sentinel changes nothing. -/
theorem maskMap_noMatch (v : AttrVal) (l : List Sample)
    (h : ∀ s ∈ l, sampleEqVal s v = false) : l.map (maskSample v) = l := by
  induction l with
  | nil => rfl
  | cons s t ih =>
    have hs := h s (by simp)
    have ht : ∀ x ∈ t, sampleEqVal x v = false := fun x hx => h x (by simp [hx])
    simp [maskSample, hs, ih ht]

/-- C9 as amended.  Applying the NodataMasker twice with one sentinel
equals applying it once; and a grid with no sample equal to the sentinel
keeps its values unchanged, and is entirely unchanged (numeric kind
included) exactly when its dtype is not an integer kind — an integer-kind
grid is still widened to `float64`, which is what the counterexample
forces the claim to concede. -/
theorem c9_amended_idempotent (arr : DataArr) (v : AttrVal) :
    _assign_nodata (_assign_nodata arr v) v = _assign_nodata arr v
  ∧ ((∀ s ∈ arr.values, sampleEqVal s v = false) →
      (_assign_nodata arr v).values = arr.values
      ∧ (strContains arr.dtypeName "int".data = false →
          _assign_nodata arr v = arr)) := by
  obtain ⟨dn, sh, vals, at_⟩ := arr
  have hf : strContains "float64".data "int".data = false := by decide
  refine ⟨?_, fun hno => ⟨?_, fun hint => ?_⟩⟩
  · by_cases h : strContains dn "int".data = true
    · simp only [_assign_nodata, h, hf, if_true, Bool.false_eq_true, if_false]
      rw [maskMap_idem]
    · rw [Bool.not_eq_true] at h
      simp only [_assign_nodata, h, Bool.false_eq_true, if_false]
      rw [maskMap_idem]
  · by_cases h : strContains dn "int".data = true
    · simp only [_assign_nodata, h, if_true]
      exact maskMap_noMatch v vals hno
    · rw [Bool.not_eq_true] at h
      simp only [_assign_nodata, h, Bool.false_eq_true, if_false]
      exact maskMap_noMatch v vals hno
  · simp only [_assign_nodata, hint, Bool.false_eq_true, if_false]
    rw [maskMap_noMatch v vals hno]

/-- Witness for the amended C9 at a concrete grid and sentinel. -/
theorem c9_amended_witness :
    _assign_nodata (_assign_nodata fltNoMatchArr (AttrVal.int 3)) (AttrVal.int 3)
      = _assign_nodata fltNoMatchArr (AttrVal.int 3)
  ∧ (_assign_nodata fltNoMatchArr (AttrVal.int 3)).values = fltNoMatchArr.values
  ∧ _assign_nodata fltNoMatchArr (AttrVal.int 3) = fltNoMatchArr :=
  ⟨(c9_amended_idempotent fltNoMatchArr (AttrVal.int 3)).1,
   ((c9_amended_idempotent fltNoMatchArr (AttrVal.int 3)).2 (by decide)).1,
   ((c9_amended_idempotent fltNoMatchArr (AttrVal.int 3)).2 (by decide)).2
     (by decide)⟩

/-- Lookup in the empty dict. -/
theorem aget_nil (k : Str) : aget [] k = none := rfl

/-- Lookup step on a cons cell. -/
theorem aget_cons (k' : Str) (v : AttrVal) (t : Attrs) (k : Str) :
    aget ((k', v) :: t) k = if k' = k then some v else aget t k := rfl

/-- Assignment then lookup of the same key. -/
theorem aget_aset_self (l : Attrs) (k : Str) (v : AttrVal) :
    aget (aset l k v) k = some v := by
  induction l with
  | nil => simp [aset, aget]
  | cons kv t ih =>
    by_cases h : kv.1 = k
    · simp [aset, h, aget]
    · simp [aset, h, aget, ih]

/-- Assignment then lookup of a different key. -/
theorem aget_aset_ne (l : Attrs) (k k' : Str) (v : AttrVal) (h : k ≠ k') :
    aget (aset l k v) k' = aget l k' := by
  induction l with
  | nil =>
    simp only [aset]
    rw [aget_cons, if_neg h]
  | cons kv t ih =>
    cases kv with
    | mk k1 v1 =>
      by_cases hk : k1 = k
      · subst hk
        have e1 : aset ((k1, v1) :: t) k1 v = (k1, v) :: t := by simp [aset]
        rw [e1, aget_cons, aget_cons, if_neg h, if_neg h]
      · have e1 : aset ((k1, v1) :: t) k v = (k1, v1) :: aset t k v := by
          simp [aset, hk]
        rw [e1, aget_cons, aget_cons, ih]

/-- The lower-keyed fold leaves a key untouched when no input key
normalizes to it. -/
theorem aget_foldLower_absent (attrs : Attrs) (init : Attrs) (k : Str)
    (h : ∀ kv ∈ attrs, lowerKey kv.1 ≠ k) :
    aget (attrs.foldl (fun l kv => aset l (lowerKey kv.1) kv.2) init) k
      = aget init k := by
  induction attrs generalizing init with
  | nil => rfl
  | cons kv t ih =>
    have h1 : lowerKey kv.1 ≠ k := h kv (by simp)
    have h2 : ∀ x ∈ t, lowerKey x.1 ≠ k := fun x hx => h x (by simp [hx])
    simp only [List.foldl_cons]
    rw [ih _ h2, aget_aset_ne _ _ _ _ h1]

/-- Assignment preserves presence of any key. -/
theorem isSome_aset (l : Attrs) (k k' : Str) (v : AttrVal)
    (h : (aget l k').isSome = true) :
    (aget (aset l k v) k').isSome = true := by
  by_cases hk : k = k'
  · subst hk; simp [aget_aset_self]
  · rw [aget_aset_ne _ _ _ _ hk]; exact h

/-- The lower-keyed fold makes a key present when some input key
normalizes to it (or it was present initially). -/
theorem aget_foldLower_present (attrs : Attrs) (init : Attrs) (k : Str)
    (h : (∃ kv ∈ attrs, lowerKey kv.1 = k) ∨ (aget init k).isSome = true) :
    (aget (attrs.foldl (fun l kv => aset l (lowerKey kv.1) kv.2) init)
      k).isSome = true := by
  induction attrs generalizing init with
  | nil =>
    rcases h with ⟨kv, hmem, _⟩ | h
    · cases hmem
    · exact h
  | cons kv t ih =>
    simp only [List.foldl_cons]
    rcases h with ⟨w, hmem, hk⟩ | hinit
    · rcases List.mem_cons.1 hmem with rfl | hmem'
      · refine ih _ (Or.inr ?_)
        rw [hk]
        simp [aget_aset_self]
      · exact ih _ (Or.inl ⟨w, hmem', hk⟩)
    · exact ih _ (Or.inr (isSome_aset _ _ _ _ hinit))

/-- The `xy_units` back-fill touches no other key. -/
theorem aget_unitsStepXY_ne (l : Attrs) (k : Str) (h : k ≠ "xy_units".data) :
    aget (unitsStepXY l) k = aget l k := by
  unfold unitsStepXY
  cases hxy : aget l "xy_units".data <;> cases hu : aget l "units".data <;>
    first
      | rfl
      | rw [aget_aset_ne _ _ _ _ (Ne.symm h)]

/-- The `z_units` back-fill touches no other key. -/
theorem aget_unitsStepZ_ne (l : Attrs) (k : Str) (h : k ≠ "z_units".data) :
    aget (unitsStepZ l) k = aget l k := by
  unfold unitsStepZ
  cases hz : aget l "z_units".data <;> cases hu : aget l "units".data <;>
    first
      | rfl
      | rw [aget_aset_ne _ _ _ _ (Ne.symm h)]

/-- The first palette default touches only `palette_nonlinearity`. -/
theorem aget_paletteStep1_ne (l : Attrs) (k : Str)
    (h : k ≠ "palette_nonlinearity".data) :
    aget (paletteStep1 l) k = aget l k := by
  unfold paletteStep1
  split
  · rw [aget_aset_ne _ _ _ _ (Ne.symm h)]
  · rfl

/-- The second palette default touches only `palette_nonlinearity`. -/
theorem aget_paletteStep2_ne (l : Attrs) (k : Str)
    (h : k ≠ "palette_nonlinearity".data) :
    aget (paletteStep2 l) k = aget l k := by
  unfold paletteStep2
  split
  · rw [aget_aset_ne _ _ _ _ (Ne.symm h)]
  · rfl

/-- With `preferred_palette` absent, the first palette default stores the
file marker under `palette_nonlinearity`. -/
theorem paletteStep1_absent (l : Attrs)
    (h : aget l "preferred_palette".data = none) :
    aget (paletteStep1 l) "palette_nonlinearity".data
      = some (AttrVal.str "high_relief.pal".data) := by
  unfold paletteStep1
  rw [h]
  simp [aget_aset_self]

/-- With `preferred_palette` present, the first palette default is the
identity. -/
theorem paletteStep1_present (l : Attrs)
    (h : (aget l "preferred_palette".data).isSome = true) :
    paletteStep1 l = l := by
  unfold paletteStep1
  obtain ⟨v, hv⟩ := Option.isSome_iff_exists.1 h
  rw [hv]
  simp

/-- With `palette_nonlinearity` present, the second palette default is the
identity. -/
theorem paletteStep2_present (l : Attrs) (v : AttrVal)
    (h : aget l "palette_nonlinearity".data = some v) :
    paletteStep2 l = l := by
  unfold paletteStep2
  rw [h]
  simp

/-- With `palette_nonlinearity` absent, the second palette default stores
the numeric default 1.0. -/
theorem paletteStep2_absent (l : Attrs)
    (h : aget l "palette_nonlinearity".data = none) :
    aget (paletteStep2 l) "palette_nonlinearity".data
      = some (AttrVal.float 1) := by
  unfold paletteStep2
  rw [h]
  simp [aget_aset_self]

/-- One optional-fill step preserves any present binding. -/
theorem fill_step_some (l : Attrs) (ki k : Str) (v : AttrVal)
    (h : aget l k = some v) :
    aget (if (aget l ki).isNone then aset l ki (AttrVal.str []) else l) k
      = some v := by
  by_cases hk : ki = k
  · subst hk
    rw [h]
    simpa using h
  · split
    · rw [aget_aset_ne _ _ _ _ hk]; exact h
    · exact h

/-- The optional fill preserves any present binding. -/
theorem aget_fillOptional_some (l : Attrs) (k : Str) (v : AttrVal)
    (h : aget l k = some v) : aget (fillOptional l) k = some v := by
  unfold fillOptional
  simp only [OPTIONAL_DEP_FIELDS, List.foldl_cons, List.foldl_nil]
  exact fill_step_some _ _ _ _ (fill_step_some _ _ _ _ (fill_step_some _ _ _ _
    (fill_step_some _ _ _ _ (fill_step_some _ _ _ _ (fill_step_some _ _ _ _
      (fill_step_some _ _ _ _ (fill_step_some _ _ _ _ h)))))))

/-- One optional-fill step leaves other keys untouched. -/
theorem fill_step_ne (l : Attrs) (ki k : Str) (h : ki ≠ k) :
    aget (if (aget l ki).isNone then aset l ki (AttrVal.str []) else l) k
      = aget l k := by
  split
  · rw [aget_aset_ne _ _ _ _ h]
  · rfl

/-- The optional fill leaves `stacks` untouched. -/
theorem aget_fillOptional_stacks (l : Attrs) :
    aget (fillOptional l) "stacks".data = aget l "stacks".data := by
  unfold fillOptional
  simp only [OPTIONAL_DEP_FIELDS, List.foldl_cons, List.foldl_nil]
  rw [fill_step_ne _ _ _ (by decide), fill_step_ne _ _ _ (by decide),
    fill_step_ne _ _ _ (by decide), fill_step_ne _ _ _ (by decide),
    fill_step_ne _ _ _ (by decide), fill_step_ne _ _ _ (by decide),
    fill_step_ne _ _ _ (by decide), fill_step_ne _ _ _ (by decide)]

/-- A successful normalization returns exactly the filled, defaulted,
lower-keyed dict. -/
theorem case_insensitive_attrs_ok_eq (attrs : Attrs) (typ : Str) (low : Attrs)
    (hok : case_insensitive_attrs attrs typ = Except.ok low) :
    low = fillOptional (normBase attrs typ) := by
  unfold case_insensitive_attrs at hok
  split at hok
  · exact Except.noConfusion hok
  · split at hok
    · exact Except.noConfusion hok
    · split at hok
      · split at hok
        · exact Except.noConfusion hok
        · exact (Except.ok.inj hok).symm
      · exact Except.noConfusion hok

set_option maxHeartbeats 1000000 in
/-- C8 as amended.  When normalization succeeds: a mapping without a
`preferred_palette` key gets the palette file marker as its
`palette_nonlinearity` (even if it supplied one); and the numeric default
1.0 applies to a mapping without a `palette_nonlinearity` key only when a
`preferred_palette` is present — which is all the counterexample leaves of
the claim's "independently". -/
theorem c8_amended_palette_defaults (attrs : Attrs) (typ : Str) (low : Attrs)
    (hok : case_insensitive_attrs attrs typ = Except.ok low) :
    (lacksKey attrs "preferred_palette".data →
      aget low "palette_nonlinearity".data
        = some (AttrVal.str "high_relief.pal".data))
  ∧ (hasKey attrs "preferred_palette".data →
      lacksKey attrs "palette_nonlinearity".data →
      aget low "palette_nonlinearity".data = some (AttrVal.float 1)) := by
  have hlow := case_insensitive_attrs_ok_eq attrs typ low hok
  subst hlow
  constructor
  · intro hlacks
    have h1 : aget (lowerFold attrs typ) "preferred_palette".data = none := by
      unfold lowerFold
      rw [aget_foldLower_absent _ _ _ hlacks, aget_cons, if_neg (by decide),
        aget_nil]
    have h2 : aget (unitsStepZ (unitsStepXY (lowerFold attrs typ)))
        "preferred_palette".data = none := by
      rw [aget_unitsStepZ_ne _ _ (by decide),
        aget_unitsStepXY_ne _ _ (by decide)]
      exact h1
    have h3 := paletteStep1_absent _ h2
    have h4 : aget (normBase attrs typ) "palette_nonlinearity".data
        = some (AttrVal.str "high_relief.pal".data) := by
      unfold normBase
      rw [paletteStep2_present _ _ h3]
      exact h3
    exact aget_fillOptional_some _ _ _ h4
  · intro hhas hlacks
    have hp1 : (aget (lowerFold attrs typ)
        "preferred_palette".data).isSome = true := by
      unfold lowerFold
      exact aget_foldLower_present _ _ _ (Or.inl hhas)
    have hp2 : (aget (unitsStepZ (unitsStepXY (lowerFold attrs typ)))
        "preferred_palette".data).isSome = true := by
      rw [aget_unitsStepZ_ne _ _ (by decide),
        aget_unitsStepXY_ne _ _ (by decide)]
      exact hp1
    have hid := paletteStep1_present _ hp2
    have hn1 : aget (lowerFold attrs typ)
        "palette_nonlinearity".data = none := by
      unfold lowerFold
      rw [aget_foldLower_absent _ _ _ hlacks, aget_cons, if_neg (by decide),
        aget_nil]
    have hn2 : aget (unitsStepZ (unitsStepXY (lowerFold attrs typ)))
        "palette_nonlinearity".data = none := by
      rw [aget_unitsStepZ_ne _ _ (by decide),
        aget_unitsStepXY_ne _ _ (by decide)]
      exact hn1
    have h4 : aget (normBase attrs typ) "palette_nonlinearity".data
        = some (AttrVal.float 1) := by
      unfold normBase
      rw [hid]
      exact paletteStep2_absent _ hn2
    exact aget_fillOptional_some _ _ _ h4

/-- Witness for the amended C8 at two concrete mappings. -/
theorem c8_amended_witness :
    aget (fillOptional (normBase palAttrs "integer".data))
        "palette_nonlinearity".data
      = some (AttrVal.str "high_relief.pal".data)
  ∧ aget (fillOptional (normBase palPPAttrs "integer".data))
        "palette_nonlinearity".data = some (AttrVal.float 1) :=
  ⟨(c8_amended_palette_defaults palAttrs "integer".data
      (fillOptional (normBase palAttrs "integer".data)) (by decide)).1
      (by decide),
   (c8_amended_palette_defaults palPPAttrs "integer".data
      (fillOptional (normBase palPPAttrs "integer".data)) (by decide)).2
      (by decide) (by decide)⟩

/-- With no input key normalizing to `stacks`, the normalized dict has no
`stacks` entry. -/
theorem norm_stacks_absent (attrs : Attrs) (typ : Str)
    (h : lacksKey attrs "stacks".data) :
    aget (fillOptional (normBase attrs typ)) "stacks".data = none := by
  have h1 : aget (lowerFold attrs typ) "stacks".data = none := by
    unfold lowerFold
    rw [aget_foldLower_absent _ _ _ h, aget_cons, if_neg (by decide), aget_nil]
  have h2 : aget (normBase attrs typ) "stacks".data = none := by
    unfold normBase
    rw [aget_paletteStep2_ne _ _ (by decide),
      aget_paletteStep1_ne _ _ (by decide),
      aget_unitsStepZ_ne _ _ (by decide),
      aget_unitsStepXY_ne _ _ (by decide)]
    exact h1
  rw [aget_fillOptional_stacks]
  exact h2

/-- C10.  Encoding a 2-D array whose mapping has all required fields but no
`stacks` key (under any case or spacing variant) fails — the guard
`attrs.get('stacks') > 1` compares `None` with an int; and a successful
encode implies a `stacks` key was supplied and its normalized value
compared not-greater-than 1. -/
theorem c10_stacks_required (arr : DataArr) :
    (arr.shape.length = 2 → requiredPresent arr.attrs →
      lacksKey arr.attrs "stacks".data →
      (data_array_to_dep arr).isOk = false)
  ∧ (∀ hdr body, data_array_to_dep arr = Except.ok (hdr, body) →
      hasKey arr.attrs "stacks".data
      ∧ ∃ v, normStacks arr = some v ∧ pyGtOne (some v) = Except.ok false) := by
  constructor
  · intro _ _ hlacks
    unfold data_array_to_dep
    cases hc : case_insensitive_attrs arr.attrs
        (kindName (_get_dtype arr.dtypeName)) with
    | error e => rfl
    | ok a0 =>
      have hstacks : aget (aset a0 "byte_order".data
          (AttrVal.str "LITTLE_ENDIAN".data)) "stacks".data = none := by
        rw [aget_aset_ne _ _ _ _ (by decide),
          case_insensitive_attrs_ok_eq _ _ _ hc]
        exact norm_stacks_absent _ _ hlacks
      split
      · rfl
      · rename_i x a0h heq
        injection heq with h2
        subst h2
        split
        · rfl
        · rw [hstacks]
          rfl
  · intro hdr body hok
    unfold data_array_to_dep at hok
    cases hc : case_insensitive_attrs arr.attrs
        (kindName (_get_dtype arr.dtypeName)) with
    | error e => rw [hc] at hok; exact Except.noConfusion hok
    | ok a0 =>
      rw [hc] at hok
      split at hok
      · exact Except.noConfusion hok
      · rename_i x a0h heq
        injection heq with h2
        subst h2
        split at hok
        · exact Except.noConfusion hok
        · cases ha : aget (aset a0 "byte_order".data
            (AttrVal.str "LITTLE_ENDIAN".data)) "stacks".data with
        | none => rw [ha] at hok; exact Except.noConfusion hok
        | some v =>
          rw [ha] at hok
          have hnorm : normStacks arr = some v := by
            unfold normStacks
            rw [hc]
            exact ha
          have hnl : ¬ lacksKey arr.attrs "stacks".data := by
            intro hl
            have h0 := norm_stacks_absent arr.attrs
              (kindName (_get_dtype arr.dtypeName)) hl
            rw [aget_aset_ne _ _ _ _ (by decide),
              case_insensitive_attrs_ok_eq _ _ _ hc, h0] at ha
            exact Option.noConfusion ha
          have hhk : hasKey arr.attrs "stacks".data := by
            unfold lacksKey at hnl
            unfold hasKey
            push_neg at hnl
            exact hnl
          refine ⟨hhk, v, hnorm, ?_⟩
          cases v with
          | str s => exact Except.noConfusion hok
          | int n =>
            simp only [pyGtOne] at hok ⊢
            cases hgt : decide (1 < n) with
            | true => rw [hgt] at hok; simp at hok
            | false => rfl
          | float q =>
            simp only [pyGtOne] at hok ⊢
            cases hgt : decide (1 < q) with
            | true => rw [hgt] at hok; simp at hok
            | false => rfl

/-- Witness for C10 at a concrete mapping without a `stacks` key. -/
theorem c10_witness :
    noStacksArr.shape.length = 2
  ∧ requiredPresent noStacksArr.attrs
  ∧ lacksKey noStacksArr.attrs "stacks".data
  ∧ (data_array_to_dep noStacksArr).isOk = false :=
  ⟨by decide, by decide, by decide,
   (c10_stacks_required noStacksArr).1 (by decide) (by decide) (by decide)⟩

/-- An integer field name is never a floating field name. -/
theorem int_float_disjoint (k : Str) (h : k ∈ INT_DEP_FIELDS) :
    k ∉ FLOAT_DEP_FIELDS := by
  simp only [INT_DEP_FIELDS, List.mem_cons, List.not_mem_nil, or_false] at h
  rcases h with h | h | h <;> subst h <;> decide

/-- Coercion of an integer field with an unparseable value fails. -/
theorem coerce_int_err (k val : Str) (hk : k ∈ INT_DEP_FIELDS)
    (hp : pyIntStr val = none) :
    coerceVal k val = Except.error PyErr.badInt := by
  unfold coerceVal
  rw [if_pos hk, hp]

/-- Coercion of a floating field with an unparseable value fails. -/
theorem coerce_float_err (k val : Str) (hk : k ∈ FLOAT_DEP_FIELDS)
    (hp : pyFloatStr val = none) :
    coerceVal k val = Except.error PyErr.badFloat := by
  unfold coerceVal
  rw [if_neg (fun hi => int_float_disjoint k hi hk), if_pos hk, hp]

/-- Unfolding equation of the line loop on a cons cell. -/
theorem fromDepGo_cons (l : Str) (rest : List Str) (acc : Attrs) :
    fromDepGo (l :: rest) acc
      = match coerceVal (lineKV l).1 (lineKV l).2 with
        | Except.error e => Except.error e
        | Except.ok v =>
          match metaStep acc (lineKV l).1 v with
          | Except.error e => Except.error e
          | Except.ok acc2 => fromDepGo rest acc2 := rfl

/-- A line whose numeric value fails to parse makes the line loop fail. -/
theorem fromDepGo_step_bad (l : Str) (rest : List Str) (acc : Attrs)
    (hbad : badNumericLine l = true) :
    (fromDepGo (l :: rest) acc).isOk = false := by
  unfold badNumericLine at hbad
  rcases Bool.or_eq_true_iff.1 hbad with hb | hb
  · obtain ⟨hmem, hnone⟩ := Bool.and_eq_true_iff.1 hb
    rw [fromDepGo_cons]
    rw [coerce_int_err _ _ (of_decide_eq_true hmem)
      (Option.isNone_iff_eq_none.1 hnone)]
    rfl
  · obtain ⟨hmem, hnone⟩ := Bool.and_eq_true_iff.1 hb
    rw [fromDepGo_cons]
    rw [coerce_float_err _ _ (of_decide_eq_true hmem)
      (Option.isNone_iff_eq_none.1 hnone)]
    rfl

/-- Storing under any other key is a plain assignment. -/
theorem metaStep_other (acc : Attrs) (key : Str) (v : AttrVal)
    (h : ¬ key = "Metadata Entry".data) :
    metaStep acc key v = Except.ok (aset acc key v) := by
  unfold metaStep
  rw [if_neg h]

/-- The first `Metadata Entry` is a plain assignment. -/
theorem metaStep_me_none (acc : Attrs) (v : AttrVal)
    (h : aget acc "Metadata Entry".data = none) :
    metaStep acc "Metadata Entry".data v
      = Except.ok (aset acc "Metadata Entry".data v) := by
  unfold metaStep
  rw [if_pos rfl, h]

/-- Further `Metadata Entry` values accumulate newline-joined. -/
theorem metaStep_me_append (acc : Attrs) (olds nv : Str)
    (h : aget acc "Metadata Entry".data = some (AttrVal.str olds)) :
    metaStep acc "Metadata Entry".data (AttrVal.str nv)
      = Except.ok (aset acc "Metadata Entry".data
          (AttrVal.str (olds ++ '\n' :: nv))) := by
  unfold metaStep
  rw [if_pos rfl, h]

/-- A good line steps the loop to a new accumulator that still keeps the
`Metadata Entry` binding a string. -/
theorem fromDepGo_step_good (l : Str) (rest : List Str) (acc : Attrs)
    (hacc : ∀ v, aget acc "Metadata Entry".data = some v →
      ∃ s, v = AttrVal.str s)
    (hgood : badNumericLine l = false) :
    ∃ acc2, fromDepGo (l :: rest) acc = fromDepGo rest acc2
      ∧ (∀ v, aget acc2 "Metadata Entry".data = some v →
          ∃ s, v = AttrVal.str s) := by
  unfold badNumericLine at hgood
  rcases Bool.or_eq_false_iff.1 hgood with ⟨hb1, hb2⟩
  have hv : ∃ v, coerceVal (lineKV l).1 (lineKV l).2 = Except.ok v
      ∧ ((lineKV l).1 = "Metadata Entry".data → ∃ s, v = AttrVal.str s) := by
    unfold coerceVal
    by_cases hi : (lineKV l).1 ∈ INT_DEP_FIELDS
    · rw [if_pos hi]
      cases hp : pyIntStr (lineKV l).2 with
      | none =>
        rw [Bool.and_eq_false_iff] at hb1
        rcases hb1 with hb1 | hb1
        · exact absurd hi (of_decide_eq_false hb1)
        · rw [hp] at hb1; exact Bool.noConfusion hb1
      | some n =>
        refine ⟨AttrVal.int n, rfl, fun hk => ?_⟩
        rw [hk] at hi
        exact absurd hi (by decide)
    · rw [if_neg hi]
      by_cases hf : (lineKV l).1 ∈ FLOAT_DEP_FIELDS
      · rw [if_pos hf]
        cases hp : pyFloatStr (lineKV l).2 with
        | none =>
          rw [Bool.and_eq_false_iff] at hb2
          rcases hb2 with hb2 | hb2
          · exact absurd hf (of_decide_eq_false hb2)
          · rw [hp] at hb2; exact Bool.noConfusion hb2
        | some q =>
          refine ⟨AttrVal.float q, rfl, fun hk => ?_⟩
          rw [hk] at hf
          exact absurd hf (by decide)
      · rw [if_neg hf]
        by_cases hu : (lineKV l).1 ∈ UPPER_STR_FIELDS
        · rw [if_pos hu]
          exact ⟨AttrVal.str (lineKV l).2, rfl, fun _ => ⟨_, rfl⟩⟩
        · rw [if_neg hu]
          exact ⟨AttrVal.str (toUpperStr (lineKV l).2), rfl, fun _ => ⟨_, rfl⟩⟩
  obtain ⟨v, hcv, hvstr⟩ := hv
  by_cases hk : (lineKV l).1 = "Metadata Entry".data
  · obtain ⟨s, hs⟩ := hvstr hk
    subst hs
    cases hme : aget acc "Metadata Entry".data with
    | none =>
      refine ⟨aset acc "Metadata Entry".data (AttrVal.str s), ?_, ?_⟩
      · rw [fromDepGo_cons]
        simp only [hcv]
        rw [hk]
        simp only [metaStep_me_none _ _ hme]
      · intro w hw
        rw [aget_aset_self] at hw
        exact ⟨s, (Option.some.inj hw).symm⟩
    | some old =>
      obtain ⟨olds, holds⟩ := hacc old hme
      subst holds
      refine ⟨aset acc "Metadata Entry".data
        (AttrVal.str (olds ++ '\n' :: s)), ?_, ?_⟩
      · rw [fromDepGo_cons]
        simp only [hcv]
        rw [hk]
        simp only [metaStep_me_append _ _ _ hme]
      · intro w hw
        rw [aget_aset_self] at hw
        exact ⟨olds ++ '\n' :: s, (Option.some.inj hw).symm⟩
  · refine ⟨aset acc (lineKV l).1 v, ?_, ?_⟩
    · rw [fromDepGo_cons]
      simp only [hcv, metaStep_other _ _ _ hk]
    · intro w hw
      rw [aget_aset_ne _ _ _ _ hk] at hw
      exact hacc w hw

/-- C6 as amended.  Parsing header lines fails exactly when some line's
title-cased key is a numeric field whose value does not parse as that
numeric type.  A colon-less line yields the empty value, so it fails
exactly when its key is numeric; a colon-less (or any other) line with a
non-numeric key parses without error. -/
theorem c6_amended_parse_errors (ls : List Str) :
    (_from_dep ls).isOk = false ↔ ∃ l ∈ ls, badNumericLine l = true := by
  have main : ∀ (ms : List Str) (acc : Attrs),
      (∀ v, aget acc "Metadata Entry".data = some v →
        ∃ s, v = AttrVal.str s) →
      ((fromDepGo ms acc).isOk = false ↔ ∃ l ∈ ms, badNumericLine l = true) := by
    intro ms
    induction ms with
    | nil =>
      intro acc _
      constructor
      · intro hfalse
        rw [show (fromDepGo [] acc).isOk = true from rfl] at hfalse
        exact Bool.noConfusion hfalse
      · intro ⟨w, hw, _⟩
        cases hw
    | cons l rest ih =>
      intro acc hacc
      cases hb : badNumericLine l with
      | true =>
        constructor
        · intro _
          exact ⟨l, by simp, hb⟩
        · intro _
          exact fromDepGo_step_bad l rest acc hb
      | false =>
        obtain ⟨acc2, hstep, hacc2⟩ := fromDepGo_step_good l rest acc hacc hb
        rw [hstep, ih acc2 hacc2]
        constructor
        · intro ⟨w, hw, hbad⟩
          exact ⟨w, by simp [hw], hbad⟩
        · intro ⟨w, hw, hbad⟩
          rcases List.mem_cons.1 hw with rfl | hw'
          · rw [hb] at hbad; exact Bool.noConfusion hbad
          · exact ⟨w, hw', hbad⟩
  refine main ls [] (fun v hv => ?_)
  rw [aget_nil] at hv
  exact Option.noConfusion hv

/-- Little-endian serialisation always has the requested width. -/
theorem leBytes_length (w : Nat) : ∀ x, (leBytes w x).length = w := by
  induction w with
  | zero => intro x; rfl
  | succ w ih => intro x; simp [leBytes, ih]

/-- Little-endian deserialisation inverts serialisation modulo the
width. -/
theorem wordOfLE_leBytes (w : Nat) : ∀ x, wordOfLE (leBytes w x) = x % 256 ^ w := by
  induction w with
  | zero => intro x; simp [leBytes, wordOfLE, Nat.mod_one]
  | succ w ih =>
    intro x
    show x % 256 + 256 * wordOfLE (leBytes w (x / 256)) = x % 256 ^ (w + 1)
    rw [ih, pow_succ, mul_comm (256 ^ w) 256, Nat.mod_mul]

/-- The 16-bit wrap lands in the signed 16-bit range. -/
theorem wrap16_mem (n : Int) : -32768 ≤ wrap16 n ∧ wrap16 n ≤ 32767 := by
  unfold wrap16
  have h1 := Int.emod_nonneg n (by norm_num : (65536 : Int) ≠ 0)
  have h2 := Int.emod_lt_of_pos n (by norm_num : (0 : Int) < 65536)
  split <;> omega

/-- Decoding the packed two's-complement bytes of an in-range value
recovers it. -/
theorem decode16_inrange (m : Int) (h1 : -32768 ≤ m) (h2 : m ≤ 32767) :
    decodeSampleLE NKind.integer (leBytes 2 (m % 65536).toNat)
      = Sample.iv m := by
  simp only [decodeSampleLE]
  rw [wordOfLE_leBytes]
  have h3 := Int.emod_nonneg m (by norm_num : (65536 : Int) ≠ 0)
  have h4 := Int.emod_lt_of_pos m (by norm_num : (0 : Int) < 65536)
  have h5 : (m % 65536).toNat % 256 ^ 2 = (m % 65536).toNat :=
    Nat.mod_eq_of_lt (by norm_num; omega)
  rw [h5]
  split <;> (congr 1; omega)

/-- Decoding the packed bytes of an in-range binary32 pattern recovers
it. -/
theorem decode32_pattern (n : Int) (h1 : 0 ≤ n) (h2 : n < 4294967296) :
    decodeSampleLE NKind.float (leBytes 4 n.toNat) = Sample.iv n := by
  simp only [decodeSampleLE]
  rw [wordOfLE_leBytes]
  congr 1
  have h3 : n.toNat % 256 ^ 4 = n.toNat := Nat.mod_eq_of_lt (by norm_num; omega)
  rw [h3]
  omega

/-- A cast sample satisfies the packing precondition. -/
theorem packOK_astype (k : NKind) (s : Sample) (h : sampleOK k s) :
    packOK k (astypeKind k s) := by
  cases k <;> cases s <;> simp_all [sampleOK, astypeKind, packOK]
  exact wrap16_mem _

/-- A sample satisfying the precondition packs to its payload bytes. -/
theorem packSample_ok (k : NKind) (s : Sample) (h : packOK k s) :
    packSample k s = Except.ok (packedBytes k s) := by
  cases k <;> cases s <;> simp_all [packOK, packSample, packedBytes]

/-- All-good sample lists pack to the concatenation of their payloads. -/
theorem packSamples_join (k : NKind) (l : List Sample)
    (h : ∀ s ∈ l, packOK k s) :
    packSamples k l = Except.ok ((l.map (packedBytes k)).flatten) := by
  induction l with
  | nil => rfl
  | cons s t ih =>
    have hs := h s (by simp)
    have ht : ∀ x ∈ t, packOK k x := fun x hx => h x (by simp [hx])
    unfold packSamples
    rw [packSample_ok _ _ hs, ih ht]
    simp

/-- Packed bytes of a cast sample have the kind's width. -/
theorem packedBytes_astype_length (k : NKind) (s : Sample) :
    (packedBytes k (astypeKind k s)).length = sampleWidth k := by
  cases k <;> cases s <;>
    simp [packedBytes, astypeKind, sampleWidth, leBytes_length]

/-- Decoding the packed bytes of a cast, well-formed sample recovers the
cast sample. -/
theorem decode_astype (k : NKind) (s : Sample) (h : sampleOK k s) :
    decodeSampleLE k (packedBytes k (astypeKind k s)) = astypeKind k s := by
  cases k with
  | float =>
    cases s with
    | nan => exact absurd h (by simp [sampleOK])
    | iv n =>
      obtain ⟨h1, h2⟩ := h
      exact decode32_pattern n h1 h2
  | integer =>
    cases s with
    | nan => exact absurd h (by simp [sampleOK])
    | iv n =>
      have hb := wrap16_mem n
      exact decode16_inrange (wrap16 n) hb.1 hb.2

/-- Unfolding equation of the chunking loop. -/
theorem chunkGo_cons (w : Nat) (acc : List Nat) (b : Nat) (rest : List Nat) :
    chunkGo w acc (b :: rest)
      = if (acc ++ [b]).length = w then (acc ++ [b]) :: chunkGo w [] rest
        else chunkGo w (acc ++ [b]) rest := rfl

/-- The chunking loop emits a full block and restarts. -/
theorem chunkGo_emit (w : Nat) (c : List Nat) :
    ∀ (acc r : List Nat), c ≠ [] → (acc ++ c).length = w →
    chunkGo w acc (c ++ r) = (acc ++ c) :: chunkGo w [] r := by
  induction c with
  | nil => intro acc r hne _; exact absurd rfl hne
  | cons b c2 ih =>
    intro acc r _ hlen
    by_cases h2 : c2 = []
    · subst h2
      rw [List.cons_append, List.nil_append, chunkGo_cons,
        if_pos (by simpa using hlen)]
    · rw [List.cons_append, chunkGo_cons, if_neg, ih (acc ++ [b]) r h2
        (by simpa using hlen)]
      · simp
      · intro hw
        simp only [List.length_append, List.length_cons] at hlen hw
        have : 1 ≤ c2.length := List.length_pos.2 h2
        simp at hw
        omega

/-- Chunking the concatenation of full-width blocks recovers the blocks. -/
theorem chunkBytes_join (w : Nat) (blocks : List (List Nat)) (hw : 0 < w)
    (h : ∀ b ∈ blocks, b.length = w) :
    chunkBytes w blocks.flatten = blocks := by
  induction blocks with
  | nil => rfl
  | cons c bs ih =>
    have hc := h c (by simp)
    unfold chunkBytes
    rw [List.flatten_cons, chunkGo_emit w c [] bs.flatten
      (by intro hc0; rw [hc0] at hc; simp at hc; omega)
      (by simpa using hc)]
    congr 1
    exact ih (fun b hb => h b (by simp [hb]))

/-- Reading back the packed body of a well-formed sample list yields the
cast samples. -/
theorem npFromfile_round (k : NKind) (l : List Sample)
    (h : ∀ s ∈ l, sampleOK k s) :
    npFromfile ((l.map (fun s => packedBytes k (astypeKind k s))).flatten) k false
      = l.map (astypeKind k) := by
  unfold npFromfile
  rw [chunkBytes_join (sampleWidth k) _ (by cases k <;> decide)
    (by intro b hb
        obtain ⟨s, hs, rfl⟩ := List.mem_map.1 hb
        exact packedBytes_astype_length k s)]
  rw [List.map_map]
  apply List.map_congr_left
  intro s hs
  simp only [Function.comp_apply, Bool.false_eq_true, if_false]
  exact decode_astype k s (h s hs)

/-- Resizing to the exact length is the identity. -/
theorem padResize_length (l : List Sample) : padResize l.length l = l := by
  unfold padResize
  simp

/-- Digit characters are digits. -/
theorem digitCh_isDigit {x : Char} (h : DigitCh x) : x.isDigit = true := by
  obtain ⟨d, hd, rfl⟩ := h
  interval_cases d <;> decide

/-- Digit characters are not whitespace. -/
theorem digitCh_not_ws {x : Char} (h : DigitCh x) : isWs x = false := by
  obtain ⟨d, hd, rfl⟩ := h
  interval_cases d <;> decide

/-- Digit characters are not the decimal point. -/
theorem digitCh_ne_dot {x : Char} (h : DigitCh x) : x ≠ '.' := by
  obtain ⟨d, hd, rfl⟩ := h
  interval_cases d <;> decide

/-- Digit characters are not sign characters. -/
theorem digitCh_ne_minus {x : Char} (h : DigitCh x) : x ≠ '-' := by
  obtain ⟨d, hd, rfl⟩ := h
  interval_cases d <;> decide

/-- Digit characters are not plus signs. -/
theorem digitCh_ne_plus {x : Char} (h : DigitCh x) : x ≠ '+' := by
  obtain ⟨d, hd, rfl⟩ := h
  interval_cases d <;> decide

/-- Digit characters are not colons. -/
theorem digitCh_ne_colon {x : Char} (h : DigitCh x) : x ≠ ':' := by
  obtain ⟨d, hd, rfl⟩ := h
  interval_cases d <;> decide

/-- Numeric value of a digit character. -/
theorem digitCh_val {d : Nat} (h : d < 10) : (digitChar d).toNat - 48 = d := by
  interval_cases d <;> decide

/-- The digit loop produces the base-ten digits, most significant first. -/
theorem natDigitsGo_eq (fuel : Nat) :
    ∀ (n : Nat) (acc : Str), n < fuel →
    natDigitsGo fuel n acc = ((Nat.digits 10 n).reverse.map digitChar) ++ acc := by
  induction fuel with
  | zero => intro n acc h; omega
  | succ fuel ih =>
    intro n acc h
    cases n with
    | zero => simp [natDigitsGo]
    | succ m =>
      rw [show natDigitsGo (fuel + 1) (m + 1) acc
        = natDigitsGo fuel ((m + 1) / 10) (digitChar ((m + 1) % 10) :: acc)
        from rfl]
      rw [ih ((m + 1) / 10) _ (by
        have := Nat.div_lt_self (Nat.succ_pos m) (by norm_num : 1 < 10)
        omega)]
      rw [Nat.digits_def' (by norm_num : 1 < 10) (Nat.succ_pos m)]
      simp

/-- Every character of `renderNat` is a digit character. -/
theorem renderNat_digitCh (m : Nat) : ∀ x ∈ renderNat m, DigitCh x := by
  unfold renderNat
  split
  · intro x hx
    simp at hx
    exact ⟨0, by norm_num, by rw [hx]; rfl⟩
  · intro x hx
    rw [natDigitsGo_eq (m + 1) m [] (by omega)] at hx
    simp only [List.append_nil, List.mem_map, List.mem_reverse] at hx
    obtain ⟨d, hd, rfl⟩ := hx
    exact ⟨d, Nat.digits_lt_base (by norm_num) hd, rfl⟩

/-- `renderNat` is never empty. -/
theorem renderNat_ne_nil (m : Nat) : renderNat m ≠ [] := by
  unfold renderNat
  split
  · simp
  · rw [natDigitsGo_eq (m + 1) m [] (by omega)]
    simp only [List.append_nil, ne_eq, List.map_eq_nil_iff, List.reverse_eq_nil_iff]
    exact Nat.digits_ne_nil_iff_ne_zero.2 (by assumption)

/-- Folding the digit-value step over digit characters equals folding the
digits. -/
theorem foldl_digitChars (ds : List Nat) (h : ∀ d ∈ ds, d < 10) :
    ∀ a, List.foldl (fun acc c => 10 * acc + (c.toNat - 48)) a (ds.map digitChar)
      = List.foldl (fun acc d => 10 * acc + d) a ds := by
  induction ds with
  | nil => intro a; rfl
  | cons d t ih =>
    intro a
    simp only [List.map_cons, List.foldl_cons]
    rw [digitCh_val (h d (by simp)), ih (fun x hx => h x (by simp [hx]))]

/-- Folding the base-ten accumulation over reversed digits computes
`Nat.ofDigits`. -/
theorem foldl_rev_ofDigits (ds : List Nat) :
    ∀ a, List.foldl (fun acc d => 10 * acc + d) a ds.reverse
      = a * 10 ^ ds.length + Nat.ofDigits 10 ds := by
  induction ds with
  | nil => intro a; simp
  | cons d t ih =>
    intro a
    rw [List.reverse_cons, List.foldl_append, ih a]
    simp only [List.foldl_cons, List.foldl_nil, Nat.ofDigits_cons,
      List.length_cons]
    ring

/-- Parsing back the decimal rendering of a natural number. -/
theorem digitsToNat_renderNat (m : Nat) : digitsToNat (renderNat m) = m := by
  unfold renderNat
  split
  · rename_i h0
    subst h0
    rfl
  · unfold digitsToNat
    rw [natDigitsGo_eq (m + 1) m [] (by omega), List.append_nil,
      show (Nat.digits 10 m).reverse.map digitChar
        = ((Nat.digits 10 m).map digitChar).reverse by simp,
      show ((Nat.digits 10 m).map digitChar).reverse.foldl
          (fun acc c => 10 * acc + (c.toNat - 48)) 0
        = ((Nat.digits 10 m).reverse.map digitChar).foldl
          (fun acc c => 10 * acc + (c.toNat - 48)) 0 by simp]
    rw [show ((Nat.digits 10 m).reverse.map digitChar)
        = ((Nat.digits 10 m).reverse).map digitChar from rfl]
    rw [foldl_digitChars _ (fun d hd =>
      Nat.digits_lt_base (by norm_num) (List.mem_reverse.1 hd))]
    rw [foldl_rev_ofDigits]
    simp [Nat.ofDigits_digits]

/-- No whitespace appears in a rendered integer. -/
theorem renderInt_not_ws (n : Int) : ∀ x ∈ renderInt n, isWs x = false := by
  unfold renderInt
  split
  · intro x hx
    rcases List.mem_cons.1 hx with rfl | hx'
    · decide
    · exact digitCh_not_ws (renderNat_digitCh _ x hx')
  · intro x hx
    exact digitCh_not_ws (renderNat_digitCh _ x hx)

/-- No colon appears in a rendered integer. -/
theorem renderInt_no_colon (n : Int) : ∀ x ∈ renderInt n, x ≠ ':' := by
  unfold renderInt
  split
  · intro x hx
    rcases List.mem_cons.1 hx with rfl | hx'
    · decide
    · exact digitCh_ne_colon (renderNat_digitCh _ x hx')
  · intro x hx
    exact digitCh_ne_colon (renderNat_digitCh _ x hx)

/-- A string of non-whitespace characters is its own strip fixed point. -/
theorem nonWs_cleaned (s : Str) (h : ∀ x ∈ s, isWs x = false) : Cleaned s := by
  constructor
  · cases s with
    | nil => rfl
    | cons x t =>
      rw [List.dropWhile_cons, if_neg (by rw [h x (by simp)]; simp)]
  · cases hs : s.reverse with
    | nil => simp
    | cons y t =>
      rw [List.dropWhile_cons, if_neg ?_]
      have : y ∈ s.reverse := by rw [hs]; simp
      rw [h y (List.mem_reverse.1 this)]
      simp

/-- A rendered integer is strip-clean. -/
theorem renderInt_cleaned (n : Int) : Cleaned (renderInt n) := by
  exact nonWs_cleaned _ (renderInt_not_ws n)

/-- Stripping a strip-clean string is the identity. -/
theorem cleaned_strip (s : Str) (h : Cleaned s) : stripStr s = s := by
  unfold stripStr
  rw [h.1, h.2]
  simp

/-- Dropping over an all-satisfying prefix continues in the tail. -/
theorem dropWhile_all_append (p : Char → Bool) (pad s : Str)
    (hpad : ∀ x ∈ pad, p x = true) :
    (pad ++ s).dropWhile p = s.dropWhile p := by
  induction pad with
  | nil => rfl
  | cons x t ih =>
    rw [List.cons_append, List.dropWhile_cons, if_pos (hpad x (by simp)),
      ih (fun y hy => hpad y (by simp [hy]))]

/-- Drop-while never lengthens a list. -/
theorem dropWhile_length_le (p : Char → Bool) :
    ∀ l : Str, (l.dropWhile p).length ≤ l.length := by
  intro l
  induction l with
  | nil => simp
  | cons x t ih =>
    rw [List.dropWhile_cons]
    split
    · simp only [List.length_cons]
      omega
    · simp

/-- A clean nonempty string keeps a trailing context intact under
drop-while. -/
theorem dropWhile_clean_append (p : Char → Bool) (l m : Str)
    (hl : l.dropWhile p = l) (hne : l ≠ []) :
    (l ++ m).dropWhile p = l ++ m := by
  cases l with
  | nil => exact absurd rfl hne
  | cons x t =>
    rw [List.dropWhile_cons] at hl
    by_cases hp : p x = true
    · rw [if_pos hp] at hl
      have := dropWhile_length_le p t
      rw [hl] at this
      simp at this
    · rw [List.cons_append, List.dropWhile_cons,
        if_neg (by rw [Bool.not_eq_true] at hp; rw [hp]; simp)]

/-- Stripping whitespace padding before a clean string yields the string. -/
theorem strip_pad (pad s : Str) (hpad : ∀ x ∈ pad, isWs x = true)
    (hs : Cleaned s) : stripStr (pad ++ s) = s := by
  unfold stripStr
  rw [dropWhile_all_append _ _ _ hpad, hs.1, hs.2]
  simp

/-- Unfolding equation of the split loop on a cons cell. -/
theorem splitOnChar_cons_eq (c a : Char) (rest : Str) :
    splitOnChar c (a :: rest)
      = match splitOnChar c rest with
        | [] => [[]]
        | h :: t => if a = c then [] :: h :: t else (a :: h) :: t := rfl

/-- One-element join. -/
theorem joinWith_single (c : Char) (p : Str) : joinWith c [p] = p := rfl

/-- Two-or-more-element join. -/
theorem joinWith_cons2 (c : Char) (p q : Str) (ps : List Str) :
    joinWith c (p :: q :: ps) = p ++ c :: joinWith c (q :: ps) := rfl

/-- The split loop never returns the empty list. -/
theorem splitOnChar_ne_nil (c : Char) (s : Str) : splitOnChar c s ≠ [] := by
  induction s with
  | nil => simp [splitOnChar]
  | cons a rest ih =>
    rw [splitOnChar_cons_eq]
    cases h : splitOnChar c rest with
    | nil => exact absurd h ih
    | cons hh tt =>
      dsimp only
      split <;> simp

/-- Splitting at the first separator after a separator-free prefix. -/
theorem splitOnChar_prefix (c : Char) (a : Str) :
    ∀ b, (∀ x ∈ a, x ≠ c) → splitOnChar c (a ++ c :: b) = a :: splitOnChar c b := by
  induction a with
  | nil =>
    intro b _
    rw [List.nil_append, splitOnChar_cons_eq]
    cases h : splitOnChar c b with
    | nil => exact absurd h (splitOnChar_ne_nil c b)
    | cons hh tt =>
      dsimp only
      rw [if_pos rfl]
  | cons x a2 ih =>
    intro b ha
    have hx : x ≠ c := ha x (by simp)
    rw [List.cons_append, splitOnChar_cons_eq,
      ih b (fun y hy => ha y (by simp [hy]))]
    dsimp only
    rw [if_neg hx]

/-- A separator-free string does not split. -/
theorem splitOnChar_no_sep (c : Char) (s : Str) (h : ∀ x ∈ s, x ≠ c) :
    splitOnChar c s = [s] := by
  induction s with
  | nil => rfl
  | cons x t ih =>
    rw [splitOnChar_cons_eq, ih (fun y hy => h y (by simp [hy]))]
    dsimp only
    rw [if_neg (h x (by simp))]

/-- Joining undoes splitting. -/
theorem joinWith_splitOnChar (c : Char) (s : Str) :
    joinWith c (splitOnChar c s) = s := by
  induction s with
  | nil => rfl
  | cons a rest ih =>
    rw [splitOnChar_cons_eq]
    cases hsr : splitOnChar c rest with
    | nil => exact absurd hsr (splitOnChar_ne_nil c rest)
    | cons h t =>
      rw [hsr] at ih
      dsimp only
      by_cases hac : a = c
      · rw [if_pos hac, joinWith_cons2, ih, hac]
        rfl
      · rw [if_neg hac]
        cases t with
        | nil =>
          rw [joinWith_single] at ih
          rw [joinWith_single, ih]
        | cons q t2 =>
          rw [joinWith_cons2] at ih
          rw [joinWith_cons2, List.cons_append, ih]

/-- `readSign` on a leading minus consumes it. -/
theorem readSign_minus (rest : Str) : readSign ('-' :: rest) = (true, rest) := rfl

/-- `readSign` on an all-digit string consumes nothing. -/
theorem readSign_digits (s : Str) (hne : s ≠ []) (h : ∀ x ∈ s, DigitCh x) :
    readSign s = (false, s) := by
  cases s with
  | nil => exact absurd rfl hne
  | cons c rest =>
    have hc := h c (by simp)
    show (if c = '-' then (true, rest)
      else if c = '+' then (false, rest) else (false, c :: rest))
        = (false, c :: rest)
    rw [if_neg (digitCh_ne_minus hc), if_neg (digitCh_ne_plus hc)]

/-- Negative rendering equation. -/
theorem renderInt_neg (n : Int) (h : n < 0) :
    renderInt n = '-' :: renderNat n.natAbs := by
  unfold renderInt
  rw [if_pos h]

/-- Non-negative rendering equation. -/
theorem renderInt_nonneg (n : Int) (h : ¬ n < 0) :
    renderInt n = renderNat n.natAbs := by
  unfold renderInt
  rw [if_neg h]

/-- Rendered naturals are never the empty string. -/
theorem renderNat_isEmpty (m : Nat) : (renderNat m).isEmpty = false := by
  cases hh : renderNat m with
  | nil => exact absurd hh (renderNat_ne_nil _)
  | cons a t => rfl

/-- Rendered naturals are all digit characters. -/
theorem renderNat_all_digits (m : Nat) :
    (renderNat m).all Char.isDigit = true :=
  List.all_eq_true.2 (fun x hx => digitCh_isDigit (renderNat_digitCh _ x hx))

/-- Python `int(str(n))` recovers `n`: the decimal render of an integer
parses back to it. -/
theorem pyIntStr_renderInt (n : Int) : pyIntStr (renderInt n) = some n := by
  unfold pyIntStr
  rw [cleaned_strip _ (renderInt_cleaned n)]
  by_cases hneg : n < 0
  · rw [renderInt_neg n hneg, readSign_minus]
    dsimp only
    rw [if_pos (by simp [renderNat_isEmpty, renderNat_all_digits]),
      if_pos rfl, digitsToNat_renderNat]
    congr 1
    omega
  · rw [renderInt_nonneg n hneg,
      readSign_digits _ (renderNat_ne_nil _) (renderNat_digitCh _)]
    dsimp only
    rw [if_pos (by simp [renderNat_isEmpty, renderNat_all_digits]),
      if_neg (by simp), digitsToNat_renderNat]
    congr 1
    omega

/-- Python `float(str(n))` recovers `n` exactly for integral `n`. -/
theorem pyFloatStr_renderInt (n : Int) :
    pyFloatStr (renderInt n) = some ((n : Int) : Rat) := by
  have hdot : splitOnChar '.' (renderNat n.natAbs) = [renderNat n.natAbs] :=
    splitOnChar_no_sep '.' _
      (fun x hx => digitCh_ne_dot (renderNat_digitCh _ x hx))
  unfold pyFloatStr
  rw [cleaned_strip _ (renderInt_cleaned n)]
  by_cases hneg : n < 0
  · rw [renderInt_neg n hneg, readSign_minus]
    dsimp only
    simp only [hdot]
    rw [if_pos (by simp [renderNat_isEmpty, renderNat_all_digits]),
      digitsToNat_renderNat]
    unfold pySign
    rw [if_pos rfl]
    congr 1
    rw [Int.cast_natAbs, abs_of_neg hneg]
    push_cast
    ring
  · rw [renderInt_nonneg n hneg,
      readSign_digits _ (renderNat_ne_nil _) (renderNat_digitCh _)]
    dsimp only
    simp only [hdot]
    rw [if_pos (by simp [renderNat_isEmpty, renderNat_all_digits]),
      digitsToNat_renderNat]
    unfold pySign
    rw [if_neg (by simp)]
    congr 1
    rw [Int.cast_natAbs, abs_of_nonneg (not_lt.1 hneg)]

/-- Coercion of an integer field applied to a rendered integer. -/
theorem coerce_int_render (k : Str) (hk : k ∈ INT_DEP_FIELDS) (n : Int) :
    coerceVal k (renderInt n) = Except.ok (AttrVal.int n) := by
  unfold coerceVal
  rw [if_pos hk, pyIntStr_renderInt]

/-- Coercion of a floating field applied to a rendered integer. -/
theorem coerce_float_render (k : Str) (hk : k ∈ FLOAT_DEP_FIELDS) (n : Int) :
    coerceVal k (renderInt n) = Except.ok (AttrVal.float ((n : Int) : Rat)) := by
  unfold coerceVal
  rw [if_neg (fun hi => int_float_disjoint k hi hk), if_pos hk,
    pyFloatStr_renderInt]

/-- Coercion of a fixed-case string field is verbatim. -/
theorem coerce_upperfield (k v : Str) (h1 : k ∉ INT_DEP_FIELDS)
    (h2 : k ∉ FLOAT_DEP_FIELDS) (h3 : k ∈ UPPER_STR_FIELDS) :
    coerceVal k v = Except.ok (AttrVal.str v) := by
  unfold coerceVal
  rw [if_neg h1, if_neg h2, if_pos h3]

/-- Coercion of any other string field upper-cases. -/
theorem coerce_notnum (k v : Str) (h1 : k ∉ INT_DEP_FIELDS)
    (h2 : k ∉ FLOAT_DEP_FIELDS) (h3 : k ∉ UPPER_STR_FIELDS) :
    coerceVal k v = Except.ok (AttrVal.str (toUpperStr v)) := by
  unfold coerceVal
  rw [if_neg h1, if_neg h2, if_neg h3]

/-- Stripping a `key: value` line with a clean nonempty value is the
identity. -/
theorem strip_key_line (key pad s : Str) (hkne : key ≠ []) (hkc : Cleaned key)
    (_hpad : ∀ x ∈ pad, isWs x = true) (hs : Cleaned s) (hsne : s ≠ []) :
    stripStr (key ++ ':' :: (pad ++ s)) = key ++ ':' :: (pad ++ s) := by
  unfold stripStr
  rw [dropWhile_clean_append isWs key (':' :: (pad ++ s)) hkc.1 hkne]
  have hrev : (key ++ ':' :: (pad ++ s)).reverse
      = s.reverse ++ (pad.reverse ++ ':' :: key.reverse) := by
    simp [List.reverse_append, List.append_assoc]
  rw [hrev, dropWhile_clean_append isWs s.reverse _ hs.2
    (fun h0 => hsne (by simpa using h0))]
  rw [← hrev, List.reverse_reverse]

/-- Stripping a `key:` line with only whitespace after the colon keeps the
key and the colon. -/
theorem strip_key_line_empty (key pad : Str) (hkne : key ≠ [])
    (hkc : Cleaned key) (hpad : ∀ x ∈ pad, isWs x = true) :
    stripStr (key ++ ':' :: pad) = key ++ [':'] := by
  unfold stripStr
  rw [dropWhile_clean_append isWs key (':' :: pad) hkc.1 hkne]
  have hrev : (key ++ ':' :: pad).reverse
      = pad.reverse ++ ':' :: key.reverse := by
    simp [List.reverse_append, List.append_assoc]
  rw [hrev, dropWhile_all_append isWs pad.reverse (':' :: key.reverse)
    (fun x hx => hpad x (List.mem_reverse.1 hx))]
  rw [List.dropWhile_cons, if_neg (by decide)]
  simp

/-- Key and value `_from_dep` extracts from a template line: the stripped,
title-cased text before the first colon and the stripped text after it. -/
theorem lineKV_eval (key pad s : Str) (hkne : key ≠ []) (hkc : Cleaned key)
    (hknc : ∀ x ∈ key, x ≠ ':') (hpad : ∀ x ∈ pad, isWs x = true)
    (hs : Cleaned s) :
    lineKV (key ++ ':' :: (pad ++ s)) = (pyTitle key, s) := by
  by_cases hsne : s = []
  · subst hsne
    unfold lineKV
    rw [List.append_nil, strip_key_line_empty key pad hkne hkc hpad,
      splitOnChar_prefix ':' key [] hknc,
      show ((key :: splitOnChar ':' []).headD []) = key from rfl,
      show (key :: splitOnChar ':' []).tail = [[]] from rfl,
      cleaned_strip key hkc]
    rfl
  · unfold lineKV
    rw [strip_key_line key pad s hkne hkc hpad hs hsne,
      splitOnChar_prefix ':' key (pad ++ s) hknc,
      show ((key :: splitOnChar ':' (pad ++ s)).headD []) = key from rfl,
      show (key :: splitOnChar ':' (pad ++ s)).tail
        = splitOnChar ':' (pad ++ s) from rfl,
      cleaned_strip key hkc,
      joinWith_splitOnChar ':' (pad ++ s),
      strip_pad pad s hpad hs]

/-- The kind names are strip-clean. -/
theorem kindName_cleaned (k : NKind) : Cleaned (kindName k) := by
  cases k <;> exact ⟨rfl, rfl⟩

/-- Re-deriving the kind from its own name is the identity. -/
theorem get_dtype_kindName (k : NKind) : _get_dtype (kindName k) = k := by
  cases k <;> rfl

/-- Assigning an absent key appends the binding. -/
theorem aset_of_aget_none (l : Attrs) (k : Str) (v : AttrVal) :
    aget l k = none → aset l k v = l ++ [(k, v)] := by
  induction l with
  | nil => intro h0; rfl
  | cons kv t ih =>
    intro h
    cases kv with | mk k1 v1 =>
    rw [aget_cons] at h
    by_cases he : k1 = k
    · rw [if_pos he] at h
      exact Option.noConfusion h
    · rw [if_neg he] at h
      show (if k1 = k then (k, v) :: t else (k1, v1) :: aset t k v)
        = (k1, v1) :: t ++ [(k, v)]
      rw [if_neg he, ih h]
      rfl

/-- Lookup skips a prefix in which the key is absent. -/
theorem aget_append_none (l1 l2 : Attrs) (k : Str)
    (h1 : aget l1 k = none) : aget (l1 ++ l2) k = aget l2 k := by
  induction l1 with
  | nil => rfl
  | cons kv t ih =>
    cases kv with | mk k1 v1 =>
    rw [aget_cons] at h1
    by_cases he : k1 = k
    · rw [if_pos he] at h1
      exact Option.noConfusion h1
    · rw [if_neg he] at h1
      rw [List.cons_append, aget_cons, if_neg he, ih h1]

/-- The lower-keying fold of `case_insensitive_attrs` is plain concatenation
when the keys are already canonical, absent from the seed and distinct. -/
theorem lowerFold_concat (attrs : Attrs) : ∀ acc : Attrs,
    (∀ kv ∈ attrs, lowerKey kv.1 = kv.1) →
    (∀ kv ∈ attrs, aget acc kv.1 = none) →
    (attrs.map Prod.fst).Nodup →
    attrs.foldl (fun l kv => aset l (lowerKey kv.1) kv.2) acc
      = acc ++ attrs := by
  induction attrs with
  | nil =>
    intro acc _ _ _
    simp
  | cons kv t ih =>
    intro acc hlow hnone hnd
    rw [List.foldl_cons]
    show List.foldl (fun l kv2 => aset l (lowerKey kv2.1) kv2.2)
      (aset acc (lowerKey kv.1) kv.2) t = acc ++ kv :: t
    rw [hlow kv (by simp), aset_of_aget_none acc kv.1 kv.2 (hnone kv (by simp))]
    rw [List.map_cons, List.nodup_cons] at hnd
    rw [ih (acc ++ [kv]) (fun kv2 h2 => hlow kv2 (by simp [h2]))
      (fun kv2 h2 => ?_) hnd.2]
    · rw [List.append_assoc]
      rfl
    · rw [aget_append_none acc [kv] kv2.1 (hnone kv2 (by simp [h2]))]
      rw [aget_cons, if_neg, aget_nil]
      intro he
      exact hnd.1 (he ▸ List.mem_map_of_mem Prod.fst h2)

/-- One optional-fill step on a present key does nothing. -/
theorem fill_present (l : Attrs) (k : Str) (v : AttrVal)
    (h : aget l k = some v) :
    (if (aget l k).isNone then aset l k (AttrVal.str []) else l) = l := by
  rw [h]
  rfl

/-- One optional-fill step on an absent key appends the empty string. -/
theorem fill_absent (l : Attrs) (k : Str) (h : aget l k = none) :
    (if (aget l k).isNone then aset l k (AttrVal.str []) else l)
      = l ++ [(k, AttrVal.str [])] := by
  rw [h]
  show aset l k (AttrVal.str []) = l ++ [(k, AttrVal.str [])]
  exact aset_of_aget_none l k _ h

/-- The lower-keying fold on the canonical mapping family. -/
theorem lowerFold_mkAttrsSD (typ : Str)
    (vmin vmax vnorth vsouth veast vwest : Int) (cols rows : Nat)
    (zu xu ds : Str) (stk dmin dmax : Int) :
    lowerFold (mkAttrsSD vmin vmax vnorth vsouth veast vwest cols rows zu xu ds stk dmin dmax) typ
      = normC1low typ vmin vmax vnorth vsouth veast vwest cols rows zu xu ds stk dmin dmax := by
  have hkeys : (mkAttrsSD vmin vmax vnorth vsouth veast vwest cols rows zu xu ds stk dmin dmax).map Prod.fst
      = ["min".data, "max".data, "north".data, "south".data,
      "east".data, "west".data, "cols".data, "rows".data, "z_units".data,
      "xy_units".data, "data_scale".data, "stacks".data, "display_min".data,
      "display_max".data] := rfl
  unfold lowerFold
  rw [lowerFold_concat (mkAttrsSD vmin vmax vnorth vsouth veast vwest cols rows zu xu ds stk dmin dmax)
    [("dtype".data, AttrVal.str typ)] ?hlw ?hnn ?hnd]
  · rfl
  case hlw =>
    intro kv hkv
    have hk := List.mem_map_of_mem Prod.fst hkv
    rw [hkeys] at hk
    simp only [List.mem_cons, List.not_mem_nil, or_false] at hk
    rcases hk with h|h|h|h|h|h|h|h|h|h|h|h|h|h <;> rw [h] <;> decide
  case hnn =>
    intro kv hkv
    have hk := List.mem_map_of_mem Prod.fst hkv
    rw [hkeys] at hk
    simp only [List.mem_cons, List.not_mem_nil, or_false] at hk
    rcases hk with h|h|h|h|h|h|h|h|h|h|h|h|h|h <;> rw [h] <;> rfl
  case hnd =>
    rw [hkeys]
    decide

/-- The optional-field fill on the normalized canonical mapping. -/
theorem fillOptional_normC1pal (typ : Str)
    (vmin vmax vnorth vsouth veast vwest : Int) (cols rows : Nat)
    (zu xu ds : Str) (stk dmin dmax : Int) :
    fillOptional (normC1pal typ vmin vmax vnorth vsouth veast vwest cols rows zu xu ds stk dmin dmax)
      = normC1 typ vmin vmax vnorth vsouth veast vwest cols rows zu xu ds stk dmin dmax := by
  unfold fillOptional OPTIONAL_DEP_FIELDS
  simp only [List.foldl_cons, List.foldl_nil]
  rw [fill_present (normC1pal typ vmin vmax vnorth vsouth veast vwest cols rows zu xu ds stk dmin dmax) "display_min".data
    (AttrVal.int dmin) rfl]
  rw [fill_present (normC1pal typ vmin vmax vnorth vsouth veast vwest cols rows zu xu ds stk dmin dmax) "display_max".data
    (AttrVal.int dmax) rfl]
  rw [fill_absent (normC1pal typ vmin vmax vnorth vsouth veast vwest cols rows zu xu ds stk dmin dmax) "metadata_entry".data rfl]
  rw [fill_absent ((normC1pal typ vmin vmax vnorth vsouth veast vwest cols rows zu xu ds stk dmin dmax) ++ [("metadata_entry".data, AttrVal.str [])]) "projection".data rfl]
  rw [fill_absent (((normC1pal typ vmin vmax vnorth vsouth veast vwest cols rows zu xu ds stk dmin dmax) ++ [("metadata_entry".data, AttrVal.str [])]) ++ [("projection".data, AttrVal.str [])]) "preferred_palette".data rfl]
  rw [fill_present ((((normC1pal typ vmin vmax vnorth vsouth veast vwest cols rows zu xu ds stk dmin dmax) ++ [("metadata_entry".data, AttrVal.str [])]) ++ [("projection".data, AttrVal.str [])]) ++ [("preferred_palette".data, AttrVal.str [])]) "palette_nonlinearity".data
    (AttrVal.str "high_relief.pal".data) rfl]
  rw [fill_absent ((((normC1pal typ vmin vmax vnorth vsouth veast vwest cols rows zu xu ds stk dmin dmax) ++ [("metadata_entry".data, AttrVal.str [])]) ++ [("projection".data, AttrVal.str [])]) ++ [("preferred_palette".data, AttrVal.str [])]) "byte_order".data rfl]
  rw [fill_absent (((((normC1pal typ vmin vmax vnorth vsouth veast vwest cols rows zu xu ds stk dmin dmax) ++ [("metadata_entry".data, AttrVal.str [])]) ++ [("projection".data, AttrVal.str [])]) ++ [("preferred_palette".data, AttrVal.str [])]) ++ [("byte_order".data, AttrVal.str [])]) "nodata".data rfl]
  rfl

/-- Normalization of the canonical mapping family as far as `normBase`. -/
theorem normBase_mkAttrsSD (typ : Str)
    (vmin vmax vnorth vsouth veast vwest : Int) (cols rows : Nat)
    (zu xu ds : Str) (stk dmin dmax : Int) :
    normBase (mkAttrsSD vmin vmax vnorth vsouth veast vwest cols rows zu xu ds stk dmin dmax) typ
      = normC1pal typ vmin vmax vnorth vsouth veast vwest cols rows zu xu ds stk dmin dmax := by
  unfold normBase
  rw [lowerFold_mkAttrsSD]
  rw [show unitsStepXY (normC1low typ vmin vmax vnorth vsouth veast vwest cols rows zu xu ds stk dmin dmax) = normC1low typ vmin vmax vnorth vsouth veast vwest cols rows zu xu ds stk dmin dmax from rfl]
  rw [show unitsStepZ (normC1low typ vmin vmax vnorth vsouth veast vwest cols rows zu xu ds stk dmin dmax) = normC1low typ vmin vmax vnorth vsouth veast vwest cols rows zu xu ds stk dmin dmax from rfl]
  rw [show paletteStep1 (normC1low typ vmin vmax vnorth vsouth veast vwest cols rows zu xu ds stk dmin dmax) = normC1pal typ vmin vmax vnorth vsouth veast vwest cols rows zu xu ds stk dmin dmax from rfl]
  rw [show paletteStep2 (normC1pal typ vmin vmax vnorth vsouth veast vwest cols rows zu xu ds stk dmin dmax) = normC1pal typ vmin vmax vnorth vsouth veast vwest cols rows zu xu ds stk dmin dmax from rfl]

/-- Normalization of the canonical mapping family under a good data
scale. -/
theorem cia_mkAttrsSD_ok (typ : Str)
    (vmin vmax vnorth vsouth veast vwest : Int) (cols rows : Nat)
    (zu xu ds : Str) (stk dmin dmax : Int)
    (hok : OK_DATA_SCALES.contains (toLowerStr ds) = true)
    (hrgb : ¬ toLowerStr ds = "rgb".data) :
    case_insensitive_attrs (mkAttrsSD vmin vmax vnorth vsouth veast vwest cols rows zu xu ds stk dmin dmax) typ
      = Except.ok (normC1 typ vmin vmax vnorth vsouth veast vwest cols rows zu xu ds stk dmin dmax) := by
  unfold case_insensitive_attrs
  rw [normBase_mkAttrsSD]
  rw [show (REQUIRED_DEP_FIELDS.all fun k =>
    (aget (normC1pal typ vmin vmax vnorth vsouth veast vwest cols rows zu xu ds stk dmin dmax) k).isSome) = true from rfl]
  rw [if_neg (by simp)]
  rw [fillOptional_normC1pal]
  simp only [show aget (normC1 typ vmin vmax vnorth vsouth veast vwest cols rows zu xu ds stk dmin dmax) "data_scale".data
    = some (AttrVal.str ds) from rfl]
  simp only [show dataScaleLowered (some (AttrVal.str ds))
    = Except.ok (toLowerStr ds) from rfl]
  rw [if_pos hok, if_neg hrgb]

/-- Encoding the canonical mapping family: the header is the twenty template
lines and the body is the concatenated packed samples. -/
theorem c1_encode_eq (kind : NKind) (dn : Str) (hdn : _get_dtype dn = kind)
    (vmin vmax vnorth vsouth veast vwest : Int) (cols rows : Nat)
    (zu xu ds : Str) (stk dmin dmax : Int)
    (hok : OK_DATA_SCALES.contains (toLowerStr ds) = true)
    (hrgb : ¬ toLowerStr ds = "rgb".data)
    (hstk : stk ≤ 1)
    (vals : List Sample) (hvals : ∀ s ∈ vals, sampleOK kind s) :
    data_array_to_dep (DataArr.mk dn [rows, cols] vals
        (mkAttrsSD vmin vmax vnorth vsouth veast vwest cols rows zu xu ds
          stk dmin dmax))
      = Except.ok
          (c1HdrLines kind vmin vmax vnorth vsouth veast vwest cols rows
            zu xu ds stk dmin dmax,
           (vals.map (fun s => packedBytes kind (astypeKind kind s))).flatten) := by
  have hpk : ∀ s2 ∈ vals.map (astypeKind kind), packOK kind s2 := by
    intro s2 hs2
    obtain ⟨s, hs, rfl⟩ := List.mem_map.1 hs2
    exact packOK_astype kind s (hvals s hs)
  have hts : to_tas (vals.map (astypeKind kind)) [rows, cols] kind
      = Except.ok
          ((vals.map (fun s => packedBytes kind (astypeKind kind s))).flatten) := by
    unfold to_tas
    rw [if_neg (by simp), packSamples_join kind _ hpk, List.map_map]
    rfl
  unfold data_array_to_dep
  dsimp only
  rw [hdn]
  simp only [cia_mkAttrsSD_ok (kindName kind) vmin vmax vnorth vsouth veast
    vwest cols rows zu xu ds stk dmin dmax hok hrgb]
  rw [if_neg (by simp)]
  simp only [show aget (aset (normC1 (kindName kind) vmin vmax vnorth vsouth
    veast vwest cols rows zu xu ds stk dmin dmax) "byte_order".data
    (AttrVal.str "LITTLE_ENDIAN".data)) "stacks".data
      = some (AttrVal.int stk) from rfl]
  simp only [show pyGtOne (some (AttrVal.int stk))
    = Except.ok (decide (1 < stk)) from rfl]
  have hgt : decide (1 < stk) = false := decide_eq_false (by omega)
  rw [hgt, if_neg Bool.false_ne_true]
  simp only [show aget (aset (normC1 (kindName kind) vmin vmax vnorth vsouth
    veast vwest cols rows zu xu ds stk dmin dmax) "byte_order".data
    (AttrVal.str "LITTLE_ENDIAN".data)) "metadata_entry".data
      = some (AttrVal.str ([] : Str)) from rfl]
  simp only [show depFileLines (aset (normC1 (kindName kind) vmin vmax vnorth
    vsouth veast vwest cols rows zu xu ds stk dmin dmax) "byte_order".data
    (AttrVal.str "LITTLE_ENDIAN".data)) ([] : Str)
      = Except.ok (c1HdrLines kind vmin vmax vnorth vsouth veast vwest cols
          rows zu xu ds stk dmin dmax) from rfl]
  simp only [hts]

/-- Parsing the written header lines of the canonical mapping family back
into the title-keyed, coerced attribute dict. -/
theorem c1_parse_eq (kind : NKind)
    (vmin vmax vnorth vsouth veast vwest : Int) (cols rows : Nat)
    (zu xu ds : Str) (stk dmin dmax : Int)
    (hzu : Cleaned zu) (hxu : Cleaned xu) (hds : Cleaned ds) :
    _from_dep (c1HdrLines kind vmin vmax vnorth vsouth veast vwest cols rows zu xu ds stk dmin dmax)
      = Except.ok (c1ParsedAttrs kind vmin vmax vnorth vsouth veast vwest cols rows zu xu ds stk dmin dmax) := by
  have hkv1 : lineKV ("Min:  ".data ++ renderInt vmin)
      = ("Min".data, renderInt vmin) :=
    lineKV_eval "Min".data "  ".data (renderInt vmin) (by decide) (by decide)
      (by decide) (by decide) (renderInt_cleaned vmin)
  have hcv1 : coerceVal "Min".data (renderInt vmin)
      = Except.ok (AttrVal.float (vmin : Rat)) :=
    coerce_float_render "Min".data (by decide) vmin
  have hm1 : ∀ a, metaStep a "Min".data (AttrVal.float (vmin : Rat))
      = Except.ok (aset a "Min".data (AttrVal.float (vmin : Rat))) :=
    fun a => metaStep_other a _ _ (by decide)
  have hkv2 : lineKV ("Max:    ".data ++ renderInt vmax)
      = ("Max".data, renderInt vmax) :=
    lineKV_eval "Max".data "    ".data (renderInt vmax) (by decide) (by decide)
      (by decide) (by decide) (renderInt_cleaned vmax)
  have hcv2 : coerceVal "Max".data (renderInt vmax)
      = Except.ok (AttrVal.float (vmax : Rat)) :=
    coerce_float_render "Max".data (by decide) vmax
  have hm2 : ∀ a, metaStep a "Max".data (AttrVal.float (vmax : Rat))
      = Except.ok (aset a "Max".data (AttrVal.float (vmax : Rat))) :=
    fun a => metaStep_other a _ _ (by decide)
  have hkv3 : lineKV ("North:  ".data ++ renderInt vnorth)
      = ("North".data, renderInt vnorth) :=
    lineKV_eval "North".data "  ".data (renderInt vnorth) (by decide) (by decide)
      (by decide) (by decide) (renderInt_cleaned vnorth)
  have hcv3 : coerceVal "North".data (renderInt vnorth)
      = Except.ok (AttrVal.float (vnorth : Rat)) :=
    coerce_float_render "North".data (by decide) vnorth
  have hm3 : ∀ a, metaStep a "North".data (AttrVal.float (vnorth : Rat))
      = Except.ok (aset a "North".data (AttrVal.float (vnorth : Rat))) :=
    fun a => metaStep_other a _ _ (by decide)
  have hkv4 : lineKV ("South:  ".data ++ renderInt vsouth)
      = ("South".data, renderInt vsouth) :=
    lineKV_eval "South".data "  ".data (renderInt vsouth) (by decide) (by decide)
      (by decide) (by decide) (renderInt_cleaned vsouth)
  have hcv4 : coerceVal "South".data (renderInt vsouth)
      = Except.ok (AttrVal.float (vsouth : Rat)) :=
    coerce_float_render "South".data (by decide) vsouth
  have hm4 : ∀ a, metaStep a "South".data (AttrVal.float (vsouth : Rat))
      = Except.ok (aset a "South".data (AttrVal.float (vsouth : Rat))) :=
    fun a => metaStep_other a _ _ (by decide)
  have hkv5 : lineKV ("East:   ".data ++ renderInt veast)
      = ("East".data, renderInt veast) :=
    lineKV_eval "East".data "   ".data (renderInt veast) (by decide) (by decide)
      (by decide) (by decide) (renderInt_cleaned veast)
  have hcv5 : coerceVal "East".data (renderInt veast)
      = Except.ok (AttrVal.float (veast : Rat)) :=
    coerce_float_render "East".data (by decide) veast
  have hm5 : ∀ a, metaStep a "East".data (AttrVal.float (veast : Rat))
      = Except.ok (aset a "East".data (AttrVal.float (veast : Rat))) :=
    fun a => metaStep_other a _ _ (by decide)
  have hkv6 : lineKV ("West:   ".data ++ renderInt vwest)
      = ("West".data, renderInt vwest) :=
    lineKV_eval "West".data "   ".data (renderInt vwest) (by decide) (by decide)
      (by decide) (by decide) (renderInt_cleaned vwest)
  have hcv6 : coerceVal "West".data (renderInt vwest)
      = Except.ok (AttrVal.float (vwest : Rat)) :=
    coerce_float_render "West".data (by decide) vwest
  have hm6 : ∀ a, metaStep a "West".data (AttrVal.float (vwest : Rat))
      = Except.ok (aset a "West".data (AttrVal.float (vwest : Rat))) :=
    fun a => metaStep_other a _ _ (by decide)
  have hkv7 : lineKV ("Cols:   ".data ++ renderInt (cols : Int))
      = ("Cols".data, renderInt (cols : Int)) :=
    lineKV_eval "Cols".data "   ".data (renderInt (cols : Int)) (by decide) (by decide)
      (by decide) (by decide) (renderInt_cleaned (cols : Int))
  have hcv7 : coerceVal "Cols".data (renderInt (cols : Int))
      = Except.ok (AttrVal.int (cols : Int)) :=
    coerce_int_render "Cols".data (by decide) (cols : Int)
  have hm7 : ∀ a, metaStep a "Cols".data (AttrVal.int (cols : Int))
      = Except.ok (aset a "Cols".data (AttrVal.int (cols : Int))) :=
    fun a => metaStep_other a _ _ (by decide)
  have hkv8 : lineKV ("Rows:   ".data ++ renderInt (rows : Int))
      = ("Rows".data, renderInt (rows : Int)) :=
    lineKV_eval "Rows".data "   ".data (renderInt (rows : Int)) (by decide) (by decide)
      (by decide) (by decide) (renderInt_cleaned (rows : Int))
  have hcv8 : coerceVal "Rows".data (renderInt (rows : Int))
      = Except.ok (AttrVal.int (rows : Int)) :=
    coerce_int_render "Rows".data (by decide) (rows : Int)
  have hm8 : ∀ a, metaStep a "Rows".data (AttrVal.int (rows : Int))
      = Except.ok (aset a "Rows".data (AttrVal.int (rows : Int))) :=
    fun a => metaStep_other a _ _ (by decide)
  have hkv9 : lineKV ("Stacks: ".data ++ renderInt stk)
      = ("Stacks".data, renderInt stk) :=
    lineKV_eval "Stacks".data " ".data (renderInt stk) (by decide) (by decide)
      (by decide) (by decide) (renderInt_cleaned stk)
  have hcv9 : coerceVal "Stacks".data (renderInt stk)
      = Except.ok (AttrVal.int stk) :=
    coerce_int_render "Stacks".data (by decide) stk
  have hm9 : ∀ a, metaStep a "Stacks".data (AttrVal.int stk)
      = Except.ok (aset a "Stacks".data (AttrVal.int stk)) :=
    fun a => metaStep_other a _ _ (by decide)
  have hkv10 : lineKV ("Data Type:  ".data ++ kindName kind)
      = ("Data Type".data, kindName kind) :=
    lineKV_eval "Data Type".data "  ".data (kindName kind) (by decide) (by decide)
      (by decide) (by decide) (kindName_cleaned kind)
  have hcv10 : coerceVal "Data Type".data (kindName kind)
      = Except.ok (AttrVal.str (kindName kind)) :=
    coerce_upperfield "Data Type".data (kindName kind) (by decide) (by decide) (by decide)
  have hm10 : ∀ a, metaStep a "Data Type".data (AttrVal.str (kindName kind))
      = Except.ok (aset a "Data Type".data (AttrVal.str (kindName kind))) :=
    fun a => metaStep_other a _ _ (by decide)
  have hkv11 : lineKV ("Z Units:    ".data ++ zu)
      = ("Z Units".data, zu) :=
    lineKV_eval "Z Units".data "    ".data (zu) (by decide) (by decide)
      (by decide) (by decide) (hzu)
  have hcv11 : coerceVal "Z Units".data (zu)
      = Except.ok (AttrVal.str (toUpperStr zu)) :=
    coerce_notnum "Z Units".data (zu) (by decide) (by decide) (by decide)
  have hm11 : ∀ a, metaStep a "Z Units".data (AttrVal.str (toUpperStr zu))
      = Except.ok (aset a "Z Units".data (AttrVal.str (toUpperStr zu))) :=
    fun a => metaStep_other a _ _ (by decide)
  have hkv12 : lineKV ("Xy Units:   ".data ++ xu)
      = ("Xy Units".data, xu) :=
    lineKV_eval "Xy Units".data "   ".data (xu) (by decide) (by decide)
      (by decide) (by decide) (hxu)
  have hcv12 : coerceVal "Xy Units".data (xu)
      = Except.ok (AttrVal.str (toUpperStr xu)) :=
    coerce_notnum "Xy Units".data (xu) (by decide) (by decide) (by decide)
  have hm12 : ∀ a, metaStep a "Xy Units".data (AttrVal.str (toUpperStr xu))
      = Except.ok (aset a "Xy Units".data (AttrVal.str (toUpperStr xu))) :=
    fun a => metaStep_other a _ _ (by decide)
  have hkv13 : lineKV "Projection: ".data
      = ("Projection".data, []) := rfl
  have hcv13 : coerceVal "Projection".data []
      = Except.ok (AttrVal.str []) := rfl
  have hm13 : ∀ a, metaStep a "Projection".data (AttrVal.str [])
      = Except.ok (aset a "Projection".data (AttrVal.str [])) :=
    fun a => metaStep_other a _ _ (by decide)
  have hkv14 : lineKV ("Data Scale: ".data ++ ds)
      = ("Data Scale".data, ds) :=
    lineKV_eval "Data Scale".data " ".data (ds) (by decide) (by decide)
      (by decide) (by decide) (hds)
  have hcv14 : coerceVal "Data Scale".data (ds)
      = Except.ok (AttrVal.str (toUpperStr ds)) :=
    coerce_notnum "Data Scale".data (ds) (by decide) (by decide) (by decide)
  have hm14 : ∀ a, metaStep a "Data Scale".data (AttrVal.str (toUpperStr ds))
      = Except.ok (aset a "Data Scale".data (AttrVal.str (toUpperStr ds))) :=
    fun a => metaStep_other a _ _ (by decide)
  have hkv15 : lineKV ("Display Min:    ".data ++ renderInt dmin)
      = ("Display Min".data, renderInt dmin) :=
    lineKV_eval "Display Min".data "    ".data (renderInt dmin) (by decide) (by decide)
      (by decide) (by decide) (renderInt_cleaned dmin)
  have hcv15 : coerceVal "Display Min".data (renderInt dmin)
      = Except.ok (AttrVal.float (dmin : Rat)) :=
    coerce_float_render "Display Min".data (by decide) dmin
  have hm15 : ∀ a, metaStep a "Display Min".data (AttrVal.float (dmin : Rat))
      = Except.ok (aset a "Display Min".data (AttrVal.float (dmin : Rat))) :=
    fun a => metaStep_other a _ _ (by decide)
  have hkv16 : lineKV ("Display Max:    ".data ++ renderInt dmax)
      = ("Display Max".data, renderInt dmax) :=
    lineKV_eval "Display Max".data "    ".data (renderInt dmax) (by decide) (by decide)
      (by decide) (by decide) (renderInt_cleaned dmax)
  have hcv16 : coerceVal "Display Max".data (renderInt dmax)
      = Except.ok (AttrVal.float (dmax : Rat)) :=
    coerce_float_render "Display Max".data (by decide) dmax
  have hm16 : ∀ a, metaStep a "Display Max".data (AttrVal.float (dmax : Rat))
      = Except.ok (aset a "Display Max".data (AttrVal.float (dmax : Rat))) :=
    fun a => metaStep_other a _ _ (by decide)
  have hkv17 : lineKV "Preferred Palette:  ".data
      = ("Preferred Palette".data, []) := rfl
  have hcv17 : coerceVal "Preferred Palette".data []
      = Except.ok (AttrVal.str []) := rfl
  have hm17 : ∀ a, metaStep a "Preferred Palette".data (AttrVal.str [])
      = Except.ok (aset a "Preferred Palette".data (AttrVal.str [])) :=
    fun a => metaStep_other a _ _ (by decide)
  have hkv18 : lineKV "Palette Nonlinearity: high_relief.pal".data
      = ("Palette Nonlinearity".data, "high_relief.pal".data) := rfl
  have hcv18 : coerceVal "Palette Nonlinearity".data "high_relief.pal".data
      = Except.ok (AttrVal.str "HIGH_RELIEF.PAL".data) := rfl
  have hm18 : ∀ a, metaStep a "Palette Nonlinearity".data (AttrVal.str "HIGH_RELIEF.PAL".data)
      = Except.ok (aset a "Palette Nonlinearity".data (AttrVal.str "HIGH_RELIEF.PAL".data)) :=
    fun a => metaStep_other a _ _ (by decide)
  have hkv19 : lineKV "Nodata: ".data
      = ("Nodata".data, []) := rfl
  have hcv19 : coerceVal "Nodata".data []
      = Except.ok (AttrVal.str []) := rfl
  have hm19 : ∀ a, metaStep a "Nodata".data (AttrVal.str [])
      = Except.ok (aset a "Nodata".data (AttrVal.str [])) :=
    fun a => metaStep_other a _ _ (by decide)
  have hkv20 : lineKV "Byte Order: LITTLE_ENDIAN".data
      = ("Byte Order".data, "LITTLE_ENDIAN".data) := rfl
  have hcv20 : coerceVal "Byte Order".data "LITTLE_ENDIAN".data
      = Except.ok (AttrVal.str "LITTLE_ENDIAN".data) := rfl
  have hm20 : ∀ a, metaStep a "Byte Order".data (AttrVal.str "LITTLE_ENDIAN".data)
      = Except.ok (aset a "Byte Order".data (AttrVal.str "LITTLE_ENDIAN".data)) :=
    fun a => metaStep_other a _ _ (by decide)
  unfold _from_dep c1HdrLines
  rw [fromDepGo_cons]
  simp only [hkv1, hcv1, hm1]
  rw [show aset ([] : Attrs) "Min".data (AttrVal.float (vmin : Rat))
    = [("Min".data, AttrVal.float (vmin : Rat))] from rfl]
  rw [fromDepGo_cons]
  simp only [hkv2, hcv2, hm2]
  rw [show aset [("Min".data, AttrVal.float (vmin : Rat))] "Max".data (AttrVal.float (vmax : Rat))
    = [("Min".data, AttrVal.float (vmin : Rat)),
    ("Max".data, AttrVal.float (vmax : Rat))] from rfl]
  rw [fromDepGo_cons]
  simp only [hkv3, hcv3, hm3]
  rw [show aset [("Min".data, AttrVal.float (vmin : Rat)),
    ("Max".data, AttrVal.float (vmax : Rat))] "North".data (AttrVal.float (vnorth : Rat))
    = [("Min".data, AttrVal.float (vmin : Rat)),
    ("Max".data, AttrVal.float (vmax : Rat)),
    ("North".data, AttrVal.float (vnorth : Rat))] from rfl]
  rw [fromDepGo_cons]
  simp only [hkv4, hcv4, hm4]
  rw [show aset [("Min".data, AttrVal.float (vmin : Rat)),
    ("Max".data, AttrVal.float (vmax : Rat)),
    ("North".data, AttrVal.float (vnorth : Rat))] "South".data (AttrVal.float (vsouth : Rat))
    = [("Min".data, AttrVal.float (vmin : Rat)),
    ("Max".data, AttrVal.float (vmax : Rat)),
    ("North".data, AttrVal.float (vnorth : Rat)),
    ("South".data, AttrVal.float (vsouth : Rat))] from rfl]
  rw [fromDepGo_cons]
  simp only [hkv5, hcv5, hm5]
  rw [show aset [("Min".data, AttrVal.float (vmin : Rat)),
    ("Max".data, AttrVal.float (vmax : Rat)),
    ("North".data, AttrVal.float (vnorth : Rat)),
    ("South".data, AttrVal.float (vsouth : Rat))] "East".data (AttrVal.float (veast : Rat))
    = [("Min".data, AttrVal.float (vmin : Rat)),
    ("Max".data, AttrVal.float (vmax : Rat)),
    ("North".data, AttrVal.float (vnorth : Rat)),
    ("South".data, AttrVal.float (vsouth : Rat)),
    ("East".data, AttrVal.float (veast : Rat))] from rfl]
  rw [fromDepGo_cons]
  simp only [hkv6, hcv6, hm6]
  rw [show aset [("Min".data, AttrVal.float (vmin : Rat)),
    ("Max".data, AttrVal.float (vmax : Rat)),
    ("North".data, AttrVal.float (vnorth : Rat)),
    ("South".data, AttrVal.float (vsouth : Rat)),
    ("East".data, AttrVal.float (veast : Rat))] "West".data (AttrVal.float (vwest : Rat))
    = [("Min".data, AttrVal.float (vmin : Rat)),
    ("Max".data, AttrVal.float (vmax : Rat)),
    ("North".data, AttrVal.float (vnorth : Rat)),
    ("South".data, AttrVal.float (vsouth : Rat)),
    ("East".data, AttrVal.float (veast : Rat)),
    ("West".data, AttrVal.float (vwest : Rat))] from rfl]
  rw [fromDepGo_cons]
  simp only [hkv7, hcv7, hm7]
  rw [show aset [("Min".data, AttrVal.float (vmin : Rat)),
    ("Max".data, AttrVal.float (vmax : Rat)),
    ("North".data, AttrVal.float (vnorth : Rat)),
    ("South".data, AttrVal.float (vsouth : Rat)),
    ("East".data, AttrVal.float (veast : Rat)),
    ("West".data, AttrVal.float (vwest : Rat))] "Cols".data (AttrVal.int (cols : Int))
    = [("Min".data, AttrVal.float (vmin : Rat)),
    ("Max".data, AttrVal.float (vmax : Rat)),
    ("North".data, AttrVal.float (vnorth : Rat)),
    ("South".data, AttrVal.float (vsouth : Rat)),
    ("East".data, AttrVal.float (veast : Rat)),
    ("West".data, AttrVal.float (vwest : Rat)),
    ("Cols".data, AttrVal.int (cols : Int))] from rfl]
  rw [fromDepGo_cons]
  simp only [hkv8, hcv8, hm8]
  rw [show aset [("Min".data, AttrVal.float (vmin : Rat)),
    ("Max".data, AttrVal.float (vmax : Rat)),
    ("North".data, AttrVal.float (vnorth : Rat)),
    ("South".data, AttrVal.float (vsouth : Rat)),
    ("East".data, AttrVal.float (veast : Rat)),
    ("West".data, AttrVal.float (vwest : Rat)),
    ("Cols".data, AttrVal.int (cols : Int))] "Rows".data (AttrVal.int (rows : Int))
    = [("Min".data, AttrVal.float (vmin : Rat)),
    ("Max".data, AttrVal.float (vmax : Rat)),
    ("North".data, AttrVal.float (vnorth : Rat)),
    ("South".data, AttrVal.float (vsouth : Rat)),
    ("East".data, AttrVal.float (veast : Rat)),
    ("West".data, AttrVal.float (vwest : Rat)),
    ("Cols".data, AttrVal.int (cols : Int)),
    ("Rows".data, AttrVal.int (rows : Int))] from rfl]
  rw [fromDepGo_cons]
  simp only [hkv9, hcv9, hm9]
  rw [show aset [("Min".data, AttrVal.float (vmin : Rat)),
    ("Max".data, AttrVal.float (vmax : Rat)),
    ("North".data, AttrVal.float (vnorth : Rat)),
    ("South".data, AttrVal.float (vsouth : Rat)),
    ("East".data, AttrVal.float (veast : Rat)),
    ("West".data, AttrVal.float (vwest : Rat)),
    ("Cols".data, AttrVal.int (cols : Int)),
    ("Rows".data, AttrVal.int (rows : Int))] "Stacks".data (AttrVal.int stk)
    = [("Min".data, AttrVal.float (vmin : Rat)),
    ("Max".data, AttrVal.float (vmax : Rat)),
    ("North".data, AttrVal.float (vnorth : Rat)),
    ("South".data, AttrVal.float (vsouth : Rat)),
    ("East".data, AttrVal.float (veast : Rat)),
    ("West".data, AttrVal.float (vwest : Rat)),
    ("Cols".data, AttrVal.int (cols : Int)),
    ("Rows".data, AttrVal.int (rows : Int)),
    ("Stacks".data, AttrVal.int stk)] from rfl]
  rw [fromDepGo_cons]
  simp only [hkv10, hcv10, hm10]
  rw [show aset [("Min".data, AttrVal.float (vmin : Rat)),
    ("Max".data, AttrVal.float (vmax : Rat)),
    ("North".data, AttrVal.float (vnorth : Rat)),
    ("South".data, AttrVal.float (vsouth : Rat)),
    ("East".data, AttrVal.float (veast : Rat)),
    ("West".data, AttrVal.float (vwest : Rat)),
    ("Cols".data, AttrVal.int (cols : Int)),
    ("Rows".data, AttrVal.int (rows : Int)),
    ("Stacks".data, AttrVal.int stk)] "Data Type".data (AttrVal.str (kindName kind))
    = [("Min".data, AttrVal.float (vmin : Rat)),
    ("Max".data, AttrVal.float (vmax : Rat)),
    ("North".data, AttrVal.float (vnorth : Rat)),
    ("South".data, AttrVal.float (vsouth : Rat)),
    ("East".data, AttrVal.float (veast : Rat)),
    ("West".data, AttrVal.float (vwest : Rat)),
    ("Cols".data, AttrVal.int (cols : Int)),
    ("Rows".data, AttrVal.int (rows : Int)),
    ("Stacks".data, AttrVal.int stk),
    ("Data Type".data, AttrVal.str (kindName kind))] from rfl]
  rw [fromDepGo_cons]
  simp only [hkv11, hcv11, hm11]
  rw [show aset [("Min".data, AttrVal.float (vmin : Rat)),
    ("Max".data, AttrVal.float (vmax : Rat)),
    ("North".data, AttrVal.float (vnorth : Rat)),
    ("South".data, AttrVal.float (vsouth : Rat)),
    ("East".data, AttrVal.float (veast : Rat)),
    ("West".data, AttrVal.float (vwest : Rat)),
    ("Cols".data, AttrVal.int (cols : Int)),
    ("Rows".data, AttrVal.int (rows : Int)),
    ("Stacks".data, AttrVal.int stk),
    ("Data Type".data, AttrVal.str (kindName kind))] "Z Units".data (AttrVal.str (toUpperStr zu))
    = [("Min".data, AttrVal.float (vmin : Rat)),
    ("Max".data, AttrVal.float (vmax : Rat)),
    ("North".data, AttrVal.float (vnorth : Rat)),
    ("South".data, AttrVal.float (vsouth : Rat)),
    ("East".data, AttrVal.float (veast : Rat)),
    ("West".data, AttrVal.float (vwest : Rat)),
    ("Cols".data, AttrVal.int (cols : Int)),
    ("Rows".data, AttrVal.int (rows : Int)),
    ("Stacks".data, AttrVal.int stk),
    ("Data Type".data, AttrVal.str (kindName kind)),
    ("Z Units".data, AttrVal.str (toUpperStr zu))] from rfl]
  rw [fromDepGo_cons]
  simp only [hkv12, hcv12, hm12]
  rw [show aset [("Min".data, AttrVal.float (vmin : Rat)),
    ("Max".data, AttrVal.float (vmax : Rat)),
    ("North".data, AttrVal.float (vnorth : Rat)),
    ("South".data, AttrVal.float (vsouth : Rat)),
    ("East".data, AttrVal.float (veast : Rat)),
    ("West".data, AttrVal.float (vwest : Rat)),
    ("Cols".data, AttrVal.int (cols : Int)),
    ("Rows".data, AttrVal.int (rows : Int)),
    ("Stacks".data, AttrVal.int stk),
    ("Data Type".data, AttrVal.str (kindName kind)),
    ("Z Units".data, AttrVal.str (toUpperStr zu))] "Xy Units".data (AttrVal.str (toUpperStr xu))
    = [("Min".data, AttrVal.float (vmin : Rat)),
    ("Max".data, AttrVal.float (vmax : Rat)),
    ("North".data, AttrVal.float (vnorth : Rat)),
    ("South".data, AttrVal.float (vsouth : Rat)),
    ("East".data, AttrVal.float (veast : Rat)),
    ("West".data, AttrVal.float (vwest : Rat)),
    ("Cols".data, AttrVal.int (cols : Int)),
    ("Rows".data, AttrVal.int (rows : Int)),
    ("Stacks".data, AttrVal.int stk),
    ("Data Type".data, AttrVal.str (kindName kind)),
    ("Z Units".data, AttrVal.str (toUpperStr zu)),
    ("Xy Units".data, AttrVal.str (toUpperStr xu))] from rfl]
  rw [fromDepGo_cons]
  simp only [hkv13, hcv13, hm13]
  rw [show aset [("Min".data, AttrVal.float (vmin : Rat)),
    ("Max".data, AttrVal.float (vmax : Rat)),
    ("North".data, AttrVal.float (vnorth : Rat)),
    ("South".data, AttrVal.float (vsouth : Rat)),
    ("East".data, AttrVal.float (veast : Rat)),
    ("West".data, AttrVal.float (vwest : Rat)),
    ("Cols".data, AttrVal.int (cols : Int)),
    ("Rows".data, AttrVal.int (rows : Int)),
    ("Stacks".data, AttrVal.int stk),
    ("Data Type".data, AttrVal.str (kindName kind)),
    ("Z Units".data, AttrVal.str (toUpperStr zu)),
    ("Xy Units".data, AttrVal.str (toUpperStr xu))] "Projection".data (AttrVal.str [])
    = [("Min".data, AttrVal.float (vmin : Rat)),
    ("Max".data, AttrVal.float (vmax : Rat)),
    ("North".data, AttrVal.float (vnorth : Rat)),
    ("South".data, AttrVal.float (vsouth : Rat)),
    ("East".data, AttrVal.float (veast : Rat)),
    ("West".data, AttrVal.float (vwest : Rat)),
    ("Cols".data, AttrVal.int (cols : Int)),
    ("Rows".data, AttrVal.int (rows : Int)),
    ("Stacks".data, AttrVal.int stk),
    ("Data Type".data, AttrVal.str (kindName kind)),
    ("Z Units".data, AttrVal.str (toUpperStr zu)),
    ("Xy Units".data, AttrVal.str (toUpperStr xu)),
    ("Projection".data, AttrVal.str [])] from rfl]
  rw [fromDepGo_cons]
  simp only [hkv14, hcv14, hm14]
  rw [show aset [("Min".data, AttrVal.float (vmin : Rat)),
    ("Max".data, AttrVal.float (vmax : Rat)),
    ("North".data, AttrVal.float (vnorth : Rat)),
    ("South".data, AttrVal.float (vsouth : Rat)),
    ("East".data, AttrVal.float (veast : Rat)),
    ("West".data, AttrVal.float (vwest : Rat)),
    ("Cols".data, AttrVal.int (cols : Int)),
    ("Rows".data, AttrVal.int (rows : Int)),
    ("Stacks".data, AttrVal.int stk),
    ("Data Type".data, AttrVal.str (kindName kind)),
    ("Z Units".data, AttrVal.str (toUpperStr zu)),
    ("Xy Units".data, AttrVal.str (toUpperStr xu)),
    ("Projection".data, AttrVal.str [])] "Data Scale".data (AttrVal.str (toUpperStr ds))
    = [("Min".data, AttrVal.float (vmin : Rat)),
    ("Max".data, AttrVal.float (vmax : Rat)),
    ("North".data, AttrVal.float (vnorth : Rat)),
    ("South".data, AttrVal.float (vsouth : Rat)),
    ("East".data, AttrVal.float (veast : Rat)),
    ("West".data, AttrVal.float (vwest : Rat)),
    ("Cols".data, AttrVal.int (cols : Int)),
    ("Rows".data, AttrVal.int (rows : Int)),
    ("Stacks".data, AttrVal.int stk),
    ("Data Type".data, AttrVal.str (kindName kind)),
    ("Z Units".data, AttrVal.str (toUpperStr zu)),
    ("Xy Units".data, AttrVal.str (toUpperStr xu)),
    ("Projection".data, AttrVal.str []),
    ("Data Scale".data, AttrVal.str (toUpperStr ds))] from rfl]
  rw [fromDepGo_cons]
  simp only [hkv15, hcv15, hm15]
  rw [show aset [("Min".data, AttrVal.float (vmin : Rat)),
    ("Max".data, AttrVal.float (vmax : Rat)),
    ("North".data, AttrVal.float (vnorth : Rat)),
    ("South".data, AttrVal.float (vsouth : Rat)),
    ("East".data, AttrVal.float (veast : Rat)),
    ("West".data, AttrVal.float (vwest : Rat)),
    ("Cols".data, AttrVal.int (cols : Int)),
    ("Rows".data, AttrVal.int (rows : Int)),
    ("Stacks".data, AttrVal.int stk),
    ("Data Type".data, AttrVal.str (kindName kind)),
    ("Z Units".data, AttrVal.str (toUpperStr zu)),
    ("Xy Units".data, AttrVal.str (toUpperStr xu)),
    ("Projection".data, AttrVal.str []),
    ("Data Scale".data, AttrVal.str (toUpperStr ds))] "Display Min".data (AttrVal.float (dmin : Rat))
    = [("Min".data, AttrVal.float (vmin : Rat)),
    ("Max".data, AttrVal.float (vmax : Rat)),
    ("North".data, AttrVal.float (vnorth : Rat)),
    ("South".data, AttrVal.float (vsouth : Rat)),
    ("East".data, AttrVal.float (veast : Rat)),
    ("West".data, AttrVal.float (vwest : Rat)),
    ("Cols".data, AttrVal.int (cols : Int)),
    ("Rows".data, AttrVal.int (rows : Int)),
    ("Stacks".data, AttrVal.int stk),
    ("Data Type".data, AttrVal.str (kindName kind)),
    ("Z Units".data, AttrVal.str (toUpperStr zu)),
    ("Xy Units".data, AttrVal.str (toUpperStr xu)),
    ("Projection".data, AttrVal.str []),
    ("Data Scale".data, AttrVal.str (toUpperStr ds)),
    ("Display Min".data, AttrVal.float (dmin : Rat))] from rfl]
  rw [fromDepGo_cons]
  simp only [hkv16, hcv16, hm16]
  rw [show aset [("Min".data, AttrVal.float (vmin : Rat)),
    ("Max".data, AttrVal.float (vmax : Rat)),
    ("North".data, AttrVal.float (vnorth : Rat)),
    ("South".data, AttrVal.float (vsouth : Rat)),
    ("East".data, AttrVal.float (veast : Rat)),
    ("West".data, AttrVal.float (vwest : Rat)),
    ("Cols".data, AttrVal.int (cols : Int)),
    ("Rows".data, AttrVal.int (rows : Int)),
    ("Stacks".data, AttrVal.int stk),
    ("Data Type".data, AttrVal.str (kindName kind)),
    ("Z Units".data, AttrVal.str (toUpperStr zu)),
    ("Xy Units".data, AttrVal.str (toUpperStr xu)),
    ("Projection".data, AttrVal.str []),
    ("Data Scale".data, AttrVal.str (toUpperStr ds)),
    ("Display Min".data, AttrVal.float (dmin : Rat))] "Display Max".data (AttrVal.float (dmax : Rat))
    = [("Min".data, AttrVal.float (vmin : Rat)),
    ("Max".data, AttrVal.float (vmax : Rat)),
    ("North".data, AttrVal.float (vnorth : Rat)),
    ("South".data, AttrVal.float (vsouth : Rat)),
    ("East".data, AttrVal.float (veast : Rat)),
    ("West".data, AttrVal.float (vwest : Rat)),
    ("Cols".data, AttrVal.int (cols : Int)),
    ("Rows".data, AttrVal.int (rows : Int)),
    ("Stacks".data, AttrVal.int stk),
    ("Data Type".data, AttrVal.str (kindName kind)),
    ("Z Units".data, AttrVal.str (toUpperStr zu)),
    ("Xy Units".data, AttrVal.str (toUpperStr xu)),
    ("Projection".data, AttrVal.str []),
    ("Data Scale".data, AttrVal.str (toUpperStr ds)),
    ("Display Min".data, AttrVal.float (dmin : Rat)),
    ("Display Max".data, AttrVal.float (dmax : Rat))] from rfl]
  rw [fromDepGo_cons]
  simp only [hkv17, hcv17, hm17]
  rw [show aset [("Min".data, AttrVal.float (vmin : Rat)),
    ("Max".data, AttrVal.float (vmax : Rat)),
    ("North".data, AttrVal.float (vnorth : Rat)),
    ("South".data, AttrVal.float (vsouth : Rat)),
    ("East".data, AttrVal.float (veast : Rat)),
    ("West".data, AttrVal.float (vwest : Rat)),
    ("Cols".data, AttrVal.int (cols : Int)),
    ("Rows".data, AttrVal.int (rows : Int)),
    ("Stacks".data, AttrVal.int stk),
    ("Data Type".data, AttrVal.str (kindName kind)),
    ("Z Units".data, AttrVal.str (toUpperStr zu)),
    ("Xy Units".data, AttrVal.str (toUpperStr xu)),
    ("Projection".data, AttrVal.str []),
    ("Data Scale".data, AttrVal.str (toUpperStr ds)),
    ("Display Min".data, AttrVal.float (dmin : Rat)),
    ("Display Max".data, AttrVal.float (dmax : Rat))] "Preferred Palette".data (AttrVal.str [])
    = [("Min".data, AttrVal.float (vmin : Rat)),
    ("Max".data, AttrVal.float (vmax : Rat)),
    ("North".data, AttrVal.float (vnorth : Rat)),
    ("South".data, AttrVal.float (vsouth : Rat)),
    ("East".data, AttrVal.float (veast : Rat)),
    ("West".data, AttrVal.float (vwest : Rat)),
    ("Cols".data, AttrVal.int (cols : Int)),
    ("Rows".data, AttrVal.int (rows : Int)),
    ("Stacks".data, AttrVal.int stk),
    ("Data Type".data, AttrVal.str (kindName kind)),
    ("Z Units".data, AttrVal.str (toUpperStr zu)),
    ("Xy Units".data, AttrVal.str (toUpperStr xu)),
    ("Projection".data, AttrVal.str []),
    ("Data Scale".data, AttrVal.str (toUpperStr ds)),
    ("Display Min".data, AttrVal.float (dmin : Rat)),
    ("Display Max".data, AttrVal.float (dmax : Rat)),
    ("Preferred Palette".data, AttrVal.str [])] from rfl]
  rw [fromDepGo_cons]
  simp only [hkv18, hcv18, hm18]
  rw [show aset [("Min".data, AttrVal.float (vmin : Rat)),
    ("Max".data, AttrVal.float (vmax : Rat)),
    ("North".data, AttrVal.float (vnorth : Rat)),
    ("South".data, AttrVal.float (vsouth : Rat)),
    ("East".data, AttrVal.float (veast : Rat)),
    ("West".data, AttrVal.float (vwest : Rat)),
    ("Cols".data, AttrVal.int (cols : Int)),
    ("Rows".data, AttrVal.int (rows : Int)),
    ("Stacks".data, AttrVal.int stk),
    ("Data Type".data, AttrVal.str (kindName kind)),
    ("Z Units".data, AttrVal.str (toUpperStr zu)),
    ("Xy Units".data, AttrVal.str (toUpperStr xu)),
    ("Projection".data, AttrVal.str []),
    ("Data Scale".data, AttrVal.str (toUpperStr ds)),
    ("Display Min".data, AttrVal.float (dmin : Rat)),
    ("Display Max".data, AttrVal.float (dmax : Rat)),
    ("Preferred Palette".data, AttrVal.str [])] "Palette Nonlinearity".data (AttrVal.str "HIGH_RELIEF.PAL".data)
    = [("Min".data, AttrVal.float (vmin : Rat)),
    ("Max".data, AttrVal.float (vmax : Rat)),
    ("North".data, AttrVal.float (vnorth : Rat)),
    ("South".data, AttrVal.float (vsouth : Rat)),
    ("East".data, AttrVal.float (veast : Rat)),
    ("West".data, AttrVal.float (vwest : Rat)),
    ("Cols".data, AttrVal.int (cols : Int)),
    ("Rows".data, AttrVal.int (rows : Int)),
    ("Stacks".data, AttrVal.int stk),
    ("Data Type".data, AttrVal.str (kindName kind)),
    ("Z Units".data, AttrVal.str (toUpperStr zu)),
    ("Xy Units".data, AttrVal.str (toUpperStr xu)),
    ("Projection".data, AttrVal.str []),
    ("Data Scale".data, AttrVal.str (toUpperStr ds)),
    ("Display Min".data, AttrVal.float (dmin : Rat)),
    ("Display Max".data, AttrVal.float (dmax : Rat)),
    ("Preferred Palette".data, AttrVal.str []),
    ("Palette Nonlinearity".data, AttrVal.str "HIGH_RELIEF.PAL".data)] from rfl]
  rw [fromDepGo_cons]
  simp only [hkv19, hcv19, hm19]
  rw [show aset [("Min".data, AttrVal.float (vmin : Rat)),
    ("Max".data, AttrVal.float (vmax : Rat)),
    ("North".data, AttrVal.float (vnorth : Rat)),
    ("South".data, AttrVal.float (vsouth : Rat)),
    ("East".data, AttrVal.float (veast : Rat)),
    ("West".data, AttrVal.float (vwest : Rat)),
    ("Cols".data, AttrVal.int (cols : Int)),
    ("Rows".data, AttrVal.int (rows : Int)),
    ("Stacks".data, AttrVal.int stk),
    ("Data Type".data, AttrVal.str (kindName kind)),
    ("Z Units".data, AttrVal.str (toUpperStr zu)),
    ("Xy Units".data, AttrVal.str (toUpperStr xu)),
    ("Projection".data, AttrVal.str []),
    ("Data Scale".data, AttrVal.str (toUpperStr ds)),
    ("Display Min".data, AttrVal.float (dmin : Rat)),
    ("Display Max".data, AttrVal.float (dmax : Rat)),
    ("Preferred Palette".data, AttrVal.str []),
    ("Palette Nonlinearity".data, AttrVal.str "HIGH_RELIEF.PAL".data)] "Nodata".data (AttrVal.str [])
    = [("Min".data, AttrVal.float (vmin : Rat)),
    ("Max".data, AttrVal.float (vmax : Rat)),
    ("North".data, AttrVal.float (vnorth : Rat)),
    ("South".data, AttrVal.float (vsouth : Rat)),
    ("East".data, AttrVal.float (veast : Rat)),
    ("West".data, AttrVal.float (vwest : Rat)),
    ("Cols".data, AttrVal.int (cols : Int)),
    ("Rows".data, AttrVal.int (rows : Int)),
    ("Stacks".data, AttrVal.int stk),
    ("Data Type".data, AttrVal.str (kindName kind)),
    ("Z Units".data, AttrVal.str (toUpperStr zu)),
    ("Xy Units".data, AttrVal.str (toUpperStr xu)),
    ("Projection".data, AttrVal.str []),
    ("Data Scale".data, AttrVal.str (toUpperStr ds)),
    ("Display Min".data, AttrVal.float (dmin : Rat)),
    ("Display Max".data, AttrVal.float (dmax : Rat)),
    ("Preferred Palette".data, AttrVal.str []),
    ("Palette Nonlinearity".data, AttrVal.str "HIGH_RELIEF.PAL".data),
    ("Nodata".data, AttrVal.str [])] from rfl]
  rw [fromDepGo_cons]
  simp only [hkv20, hcv20, hm20]
  rw [show aset [("Min".data, AttrVal.float (vmin : Rat)),
    ("Max".data, AttrVal.float (vmax : Rat)),
    ("North".data, AttrVal.float (vnorth : Rat)),
    ("South".data, AttrVal.float (vsouth : Rat)),
    ("East".data, AttrVal.float (veast : Rat)),
    ("West".data, AttrVal.float (vwest : Rat)),
    ("Cols".data, AttrVal.int (cols : Int)),
    ("Rows".data, AttrVal.int (rows : Int)),
    ("Stacks".data, AttrVal.int stk),
    ("Data Type".data, AttrVal.str (kindName kind)),
    ("Z Units".data, AttrVal.str (toUpperStr zu)),
    ("Xy Units".data, AttrVal.str (toUpperStr xu)),
    ("Projection".data, AttrVal.str []),
    ("Data Scale".data, AttrVal.str (toUpperStr ds)),
    ("Display Min".data, AttrVal.float (dmin : Rat)),
    ("Display Max".data, AttrVal.float (dmax : Rat)),
    ("Preferred Palette".data, AttrVal.str []),
    ("Palette Nonlinearity".data, AttrVal.str "HIGH_RELIEF.PAL".data),
    ("Nodata".data, AttrVal.str [])] "Byte Order".data (AttrVal.str "LITTLE_ENDIAN".data)
    = [("Min".data, AttrVal.float (vmin : Rat)),
    ("Max".data, AttrVal.float (vmax : Rat)),
    ("North".data, AttrVal.float (vnorth : Rat)),
    ("South".data, AttrVal.float (vsouth : Rat)),
    ("East".data, AttrVal.float (veast : Rat)),
    ("West".data, AttrVal.float (vwest : Rat)),
    ("Cols".data, AttrVal.int (cols : Int)),
    ("Rows".data, AttrVal.int (rows : Int)),
    ("Stacks".data, AttrVal.int stk),
    ("Data Type".data, AttrVal.str (kindName kind)),
    ("Z Units".data, AttrVal.str (toUpperStr zu)),
    ("Xy Units".data, AttrVal.str (toUpperStr xu)),
    ("Projection".data, AttrVal.str []),
    ("Data Scale".data, AttrVal.str (toUpperStr ds)),
    ("Display Min".data, AttrVal.float (dmin : Rat)),
    ("Display Max".data, AttrVal.float (dmax : Rat)),
    ("Preferred Palette".data, AttrVal.str []),
    ("Palette Nonlinearity".data, AttrVal.str "HIGH_RELIEF.PAL".data),
    ("Nodata".data, AttrVal.str []),
    ("Byte Order".data, AttrVal.str "LITTLE_ENDIAN".data)] from rfl]
  rfl

/-- Decoding the written header and packed body of the canonical mapping
family recovers the cast grid and the parsed attribute dict. -/
theorem c1_decode_eq (kind : NKind)
    (vmin vmax vnorth vsouth veast vwest : Int) (cols rows : Nat)
    (zu xu ds : Str) (stk dmin dmax : Int)
    (hzu : Cleaned zu) (hxu : Cleaned xu) (hds : Cleaned ds)
    (vals : List Sample) (hlen : vals.length = rows * cols)
    (hvals : ∀ s ∈ vals, sampleOK kind s) :
    from_dep (c1HdrLines kind vmin vmax vnorth vsouth veast vwest cols rows
        zu xu ds stk dmin dmax)
      ((vals.map (fun s => packedBytes kind (astypeKind kind s))).flatten)
      = Except.ok (DataArr.mk (kindDtypeName kind) [rows, cols]
          (vals.map (astypeKind kind))
          (c1ParsedAttrs kind vmin vmax vnorth vsouth veast vwest cols rows
            zu xu ds stk dmin dmax)) := by
  unfold from_dep
  rw [c1_parse_eq kind vmin vmax vnorth vsouth veast vwest cols rows zu xu ds
    stk dmin dmax hzu hxu hds]
  simp only [show aget (c1ParsedAttrs kind vmin vmax vnorth vsouth veast
    vwest cols rows zu xu ds stk dmin dmax) "Data Type".data
      = some (AttrVal.str (kindName kind)) from rfl,
    show aget (c1ParsedAttrs kind vmin vmax vnorth vsouth veast vwest cols
      rows zu xu ds stk dmin dmax) "byte_order".data
      = (none : Option AttrVal) from rfl,
    show aget (c1ParsedAttrs kind vmin vmax vnorth vsouth veast vwest cols
      rows zu xu ds stk dmin dmax) "Rows".data
      = some (AttrVal.int (rows : Int)) from rfl,
    show aget (c1ParsedAttrs kind vmin vmax vnorth vsouth veast vwest cols
      rows zu xu ds stk dmin dmax) "Cols".data
      = some (AttrVal.int (cols : Int)) from rfl,
    show aget (c1ParsedAttrs kind vmin vmax vnorth vsouth veast vwest cols
      rows zu xu ds stk dmin dmax) "South".data
      = some (AttrVal.float (vsouth : Rat)) from rfl,
    show aget (c1ParsedAttrs kind vmin vmax vnorth vsouth veast vwest cols
      rows zu xu ds stk dmin dmax) "North".data
      = some (AttrVal.float (vnorth : Rat)) from rfl,
    show aget (c1ParsedAttrs kind vmin vmax vnorth vsouth veast vwest cols
      rows zu xu ds stk dmin dmax) "East".data
      = some (AttrVal.float (veast : Rat)) from rfl,
    show aget (c1ParsedAttrs kind vmin vmax vnorth vsouth veast vwest cols
      rows zu xu ds stk dmin dmax) "West".data
      = some (AttrVal.float (vwest : Rat)) from rfl,
    get_dtype_kindName]
  rw [npFromfile_round kind vals hvals]
  have h1 : ((rows : Int)).toNat = rows := by omega
  have h2 : ((cols : Int)).toNat = cols := by omega
  have h3 : (((rows : Int)) * ((cols : Int))).toNat = rows * cols := by
    rw [← Nat.cast_mul]
    omega
  rw [h1, h2, h3]
  have h4 : rows * cols = (vals.map (astypeKind kind)).length := by
    rw [List.length_map, hlen]
  rw [h4, padResize_length]

/-- C1 as amended.  The spec's round trip fails as stated (see the
counterexample: a valid mapping without display fields encodes to a header
whose re-parse raises on the empty `Display Min`), and string fields come
back upper-cased rather than exactly.  Amended round trip: for the canonical
family of valid mappings that carry `stacks ≤ 1` and integral display
bounds, with clean newline-free unit and scale strings and a well-formed
grid, encoding produces exactly the twenty template header lines plus the
packed little-endian body, and decoding that pair back yields the grid cast
to the declared numeric kind (binary32 patterns unchanged, integers wrapped
to 16 bits) together with the title-keyed parsed attributes: every numeric
required field keeps its value (as a float), and every string field comes
back upper-cased. -/
theorem c1_amended_round_trip
    (kind : NKind) (dn : Str) (hdn : _get_dtype dn = kind)
    (vmin vmax vnorth vsouth veast vwest : Int) (cols rows : Nat)
    (zu xu ds : Str) (stk dmin dmax : Int)
    (hzu : Cleaned zu) (hxu : Cleaned xu) (hds : Cleaned ds)
    (_hzn : ∀ x ∈ zu, x ≠ '\n') (_hxn : ∀ x ∈ xu, x ≠ '\n')
    (_hdsn : ∀ x ∈ ds, x ≠ '\n')
    (hok : OK_DATA_SCALES.contains (toLowerStr ds) = true)
    (hrgb : ¬ toLowerStr ds = "rgb".data)
    (hstk : stk ≤ 1)
    (vals : List Sample) (hlen : vals.length = rows * cols)
    (hvals : ∀ s ∈ vals, sampleOK kind s) :
    data_array_to_dep (DataArr.mk dn [rows, cols] vals
        (mkAttrsSD vmin vmax vnorth vsouth veast vwest cols rows zu xu ds
          stk dmin dmax))
      = Except.ok
          (c1HdrLines kind vmin vmax vnorth vsouth veast vwest cols rows
            zu xu ds stk dmin dmax,
           (vals.map (fun s => packedBytes kind (astypeKind kind s))).flatten)
    ∧ from_dep (c1HdrLines kind vmin vmax vnorth vsouth veast vwest cols rows
        zu xu ds stk dmin dmax)
        ((vals.map (fun s => packedBytes kind (astypeKind kind s))).flatten)
      = Except.ok (DataArr.mk (kindDtypeName kind) [rows, cols]
          (vals.map (astypeKind kind))
          (c1ParsedAttrs kind vmin vmax vnorth vsouth veast vwest cols rows
            zu xu ds stk dmin dmax)) :=
  ⟨c1_encode_eq kind dn hdn vmin vmax vnorth vsouth veast vwest cols rows
     zu xu ds stk dmin dmax hok hrgb hstk vals hvals,
   c1_decode_eq kind vmin vmax vnorth vsouth veast vwest cols rows zu xu ds
     stk dmin dmax hzu hxu hds vals hlen hvals⟩

/-- The amended C1 round trip at a concrete input: a 1×1 integer grid with
value 7 and the canonical attributes. -/
theorem c1_amended_witness :
    data_array_to_dep (DataArr.mk "int64".data [1, 1] [Sample.iv 7]
        (mkAttrsSD 0 10 5 0 0 5 1 1 "M".data "M".data "continuous".data
          1 0 10))
      = Except.ok
          (c1HdrLines NKind.integer 0 10 5 0 0 5 1 1 "M".data "M".data
            "continuous".data 1 0 10,
           ([Sample.iv 7].map (fun s =>
             packedBytes NKind.integer (astypeKind NKind.integer s))).flatten)
    ∧ from_dep (c1HdrLines NKind.integer 0 10 5 0 0 5 1 1 "M".data "M".data
        "continuous".data 1 0 10)
        (([Sample.iv 7].map (fun s =>
          packedBytes NKind.integer (astypeKind NKind.integer s))).flatten)
      = Except.ok (DataArr.mk (kindDtypeName NKind.integer) [1, 1]
          ([Sample.iv 7].map (astypeKind NKind.integer))
          (c1ParsedAttrs NKind.integer 0 10 5 0 0 5 1 1 "M".data "M".data
            "continuous".data 1 0 10)) :=
  c1_amended_round_trip NKind.integer "int64".data rfl 0 10 5 0 0 5 1 1
    "M".data "M".data "continuous".data 1 0 10
    (by decide) (by decide) (by decide)
    (by decide) (by decide) (by decide)
    rfl (by decide) (by decide)
    [Sample.iv 7] rfl
    (fun s hs => by
      rcases List.mem_singleton.1 hs with rfl
      exact trivial)
